import Mathlib

/-!
# ESPConnect: captive-portal WiFi provisioning

A shallow embedding of `src/src/ESPConnect.cpp` (class `ESPConnectClass`) and of
the collaborators it drives (Preferences store, WiFi radio, DNS responder,
AsyncWebServer), followed by theorems about the provisioning state machine.

Conventions.
* An Arduino `String` is a list of bytes (`Str`).  The value of a form field
  may hold any bytes; the connect handler builds its `ssid` and `password`
  from `value().c_str()`, which ends at the first zero byte (`c_str`).  The
  strings the program holds afterwards (the handler's locals, the fields, the
  stored values) come from C strings, so the later `c_str()` conversions
  return them whole.
* `unsigned long` is 32 bits wide on the target; clock readings are reduced
  modulo `2 ^ 32` and subtraction of two readings wraps.
* `Serial` / `ESPCONNECT_SERIAL` output is not part of the model; the status
  reads on lines 139 and 217 only select a log line and are therefore omitted.
* What the environment decides (link status, clock readings, incoming HTTP
  requests, scan completion) is read from an `Env` value, one entry per
  source-level read, so every theorem quantifies over all behaviours of the
  collaborators.
* Handler and rewrite objects have an identity (`Obj`), because
  `removeHandler` / `removeRewrite` take a pointer and compare it with the
  pointers in the server's lists.
-/

namespace ESPConnect

/-! ## Strings and responses -/

/-- Arduino `String`: a list of bytes. -/
abbrev Str := List Nat

/-- Bytes of an ASCII string literal. -/
def lit (s : String) : Str := s.toList.map Char.toNat

/-- The C string a `String` yields through `c_str()` when it is read back into
a `String` (`String(const char*)` measures it with `strlen`): the bytes before
the first zero byte. -/
def c_str (s : Str) : Str := s.takeWhile (fun b => decide (b ≠ 0))

/-- The expression `request->hasParam(name, true) ?
request->getParam(name, true)->value().c_str() : ""` of lines 81-82, for a
form field that is absent (`none`) or present with the given bytes. -/
def formField (field : Option Str) : Str :=
  match field with
  | some v => c_str v
  | none => []

/-- Body of an HTTP response: nothing, literal bytes, or the static portal page
`ESPCONNECT_HTML` (declared in `espconnect_webpage.h`). -/
inductive Body where
  | empty
  | text (s : Str)
  | page
deriving DecidableEq, Repr

/-- What `request->send(...)` hands to the HTTP transport. -/
structure Response where
  status : Nat
  contentType : Option String
  headers : List (String × String)
  body : Body
deriving DecidableEq, Repr

/-- Model of `request->send(code)`. -/
def send (code : Nat) : Response :=
  { status := code, contentType := none, headers := [], body := Body.empty }

/-- Model of `request->send(code, "application/json", content)`. -/
def sendJson (code : Nat) (content : Str) : Response :=
  { status := code, contentType := some "application/json", headers := [],
    body := Body.text content }

/-- Model of `beginResponse_P(200, "text/html", ESPCONNECT_HTML, ESPCONNECT_HTML_SIZE)`
followed by `addHeader("Content-Encoding", "gzip")` and `request->send(response)`. -/
def sendPage : Response :=
  { status := 200, contentType := some "text/html",
    headers := [("Content-Encoding", "gzip")], body := Body.page }

/-! ## Preferences (namespace "espconnect") -/

/-- The two keys the program uses in the namespace. -/
inductive Key where
  | ssid
  | password
deriving DecidableEq, Repr

/-- Contents of the "espconnect" namespace of the key-value store.  An entry
is `none` until it is first written. -/
structure Preferences where
  ssid : Option Str
  password : Option Str
deriving DecidableEq, Repr

/-- Model of `preferences.getString(key, defaultValue)`. -/
def Preferences.getString (p : Preferences) (k : Key) (defaultValue : Str) : Str :=
  match k with
  | Key.ssid => p.ssid.getD defaultValue
  | Key.password => p.password.getD defaultValue

/-- Model of `preferences.putString(key, value)`: the store after the call and
the number of bytes written.  `ok` tells whether the storage engine accepts the
write; a failed write returns 0 and leaves the entry as it was. -/
def Preferences.putString (ok : Bool) (p : Preferences) (k : Key) (value : Str) :
    Preferences × Nat :=
  if ok then
    match k with
    | Key.ssid => ({ p with ssid := some value }, value.length)
    | Key.password => ({ p with password := some value }, value.length)
  else (p, 0)

/-! ## Radio -/

/-- One scan result: network name and encryption type. -/
structure AccessPoint where
  ssid : Str
  encryption : Nat
deriving DecidableEq, Repr

/-- Encryption type `WIFI_AUTH_OPEN`. -/
def WIFI_AUTH_OPEN : Nat := 0

/-- Return value `WIFI_SCAN_RUNNING` of `WiFi.scanComplete()`. -/
def WIFI_SCAN_RUNNING : Int := -1

/-- Return value `WIFI_SCAN_FAILED` of `WiFi.scanComplete()`. -/
def WIFI_SCAN_FAILED : Int := -2

/-- Status code `ESP_OK`. -/
def ESP_OK : Int := 0

/-- Scan state held by the radio. -/
inductive ScanState where
  | notStarted
  | running
  | ready (aps : List AccessPoint)
deriving DecidableEq, Repr

/-- Argument of `WiFi.mode`. -/
inductive WifiMode where
  | WIFI_STA
  | WIFI_AP_STA
deriving DecidableEq, Repr

/-- The part of the radio state the program acts on: station and access point
interfaces enabled, the access point being broadcast, the network the station
was last told to join, and the scan state. -/
structure Radio where
  sta : Bool
  ap : Bool
  softAP : Option (Str × Str)
  target : Option (Str × Str)
  scan : ScanState
deriving DecidableEq, Repr

/-! ## HTTP server and DNS responder -/

/-- The handler installed with `onNotFound`. -/
inductive NotFound where
  | unset
  | portalPage
  | plain404
deriving DecidableEq, Repr

/-- The routes `start_portal` registers. -/
inductive Route where
  | scanGET
  | connectPOST
  | indexGET
deriving DecidableEq, Repr

/-- The local variables of `start_portal` declared with `auto` from the
results of `_server->on(...)` and `_server->rewrite(...)`. -/
inductive Local where
  | scanGET
  | connectPOST
  | indexGET
  | portalRewrite
deriving DecidableEq, Repr

/-- Identity (address) of a handler or rewrite object: an object the server
allocated inside `on` / `rewrite` and keeps in its list, or a local variable of
`start_portal`. -/
inductive Obj where
  | heap (n : Nat)
  | stack (v : Local)
deriving DecidableEq, Repr

/-- The part of the `AsyncWebServer` the program acts on: the handlers in its
list (address and route), its rewrites of `/` to `/espconnect` (address), the
number of objects it allocated, the not-found handler, and whether `begin()`
was called on it. -/
structure Server where
  handlers : List (Obj × Route)
  rewrites : List Obj
  allocated : Nat
  notFound : NotFound
  begun : Bool
deriving DecidableEq, Repr

/-- Whether the server's list holds a handler for the route. -/
def Server.serves (s : Server) (r : Route) : Bool :=
  s.handlers.any (fun h => decide (h.2 = r))

/-- Whether the server's list holds a rewrite of `/`. -/
def Server.rewritesRoot (s : Server) : Bool := !s.rewrites.isEmpty

/-- The `DNSServer` object behind `_dns`. -/
structure DNSServer where
  running : Bool
deriving DecidableEq, Repr

/-- An HTTP request, by the route it matches.  The form fields of a connect
request are `none` when `hasParam` is false. -/
inductive Request where
  | scan
  | connect (ssid password : Option Str)
  | index
  | root (viaAP : Bool)
  | other
deriving DecidableEq, Repr

/-- Calls made on the collaborators, in program order. -/
inductive Event where
  | persistent (b : Bool)
  | setAutoConnect (b : Bool)
  | mode (m : WifiMode)
  | softAP (ssid password : Str)
  | join (ssid password : Str)
  | softAPdisconnect
  | disconnect
  | scanNetworks
  | scanDelete
  | dnsStart
  | dnsProcess
  | dnsStop
  | on (r : Route)
  | removeHandler (p : Obj)
  | rewrite
  | removeRewrite (p : Obj)
  | onNotFound (h : NotFound)
  | serverBegin
  | reply (req : Request) (resp : Response)
deriving DecidableEq, Repr

/-! ## Program state -/

/-- State of the `ESPConnect` singleton together with the collaborators it
drives.  `nvsWritable` tells whether the storage engine currently accepts
writes.  `configured` is the local variable of `start_portal` that the connect
handler captures by reference. -/
structure World where
  prefs : Preferences
  nvsWritable : Bool
  _sta_ssid : Str
  _sta_password : Str
  _auto_connect_ssid : Str
  _auto_connect_password : Str
  _auto_connect_timeout : Nat
  _dns : Option DNSServer
  _server : Server
  configured : Bool
  radio : Radio
  log : List Event
deriving DecidableEq, Repr

/-- Default of `_auto_connect_timeout` (`DEFAULT_PORTAL_TIMEOUT`). -/
def DEFAULT_PORTAL_TIMEOUT : Nat := 180000

/-- Default of the `timeout` argument of `begin` (`DEFAULT_CONNECTION_TIMEOUT`). -/
def DEFAULT_CONNECTION_TIMEOUT : Nat := 30000

/-- A server on which nothing was registered. -/
def Server.fresh : Server :=
  { handlers := [], rewrites := [], allocated := 0, notFound := NotFound.unset, begun := false }

/-- A radio that was not touched yet. -/
def Radio.idle : Radio :=
  { sta := false, ap := false, softAP := none, target := none, scan := ScanState.notStarted }

/-- State of a freshly constructed `ESPConnectClass` (member initialisers of
`ESPConnect.h`, lines 36-44) on a device with the given store. -/
def World.boot (prefs : Preferences) (nvsWritable : Bool) : World :=
  { prefs := prefs, nvsWritable := nvsWritable,
    _sta_ssid := [], _sta_password := [],
    _auto_connect_ssid := [], _auto_connect_password := [],
    _auto_connect_timeout := DEFAULT_PORTAL_TIMEOUT,
    _dns := none, _server := Server.fresh, configured := false,
    radio := Radio.idle, log := [] }

/-- Append a collaborator call to the log. -/
def World.emit (w : World) (e : Event) : World :=
  { w with log := w.log ++ [e] }

/-- Model of `WiFi.mode(m)`. -/
def WiFi_mode (m : WifiMode) (w : World) : World :=
  match m with
  | WifiMode.WIFI_STA =>
    ({ w with radio := { w.radio with sta := true, ap := false, softAP := none } }).emit (Event.mode m)
  | WifiMode.WIFI_AP_STA =>
    ({ w with radio := { w.radio with sta := true, ap := true } }).emit (Event.mode m)

/-- Model of `WiFi.softAP(ssid, password)`. -/
def WiFi_softAP (ssid password : Str) (w : World) : World :=
  ({ w with radio := { w.radio with ap := true, softAP := some (ssid, password) } }).emit
    (Event.softAP ssid password)

/-- Model of `WiFi.begin(ssid, password)`: a station join request. -/
def WiFi_begin (ssid password : Str) (w : World) : World :=
  ({ w with radio := { w.radio with sta := true, target := some (ssid, password) } }).emit
    (Event.join ssid password)

/-- Model of `WiFi.softAPdisconnect(true)`. -/
def WiFi_softAPdisconnect (w : World) : World :=
  ({ w with radio := { w.radio with ap := false, softAP := none } }).emit Event.softAPdisconnect

/-- Model of `WiFi.disconnect(true, true)`. -/
def WiFi_disconnect (w : World) : World :=
  ({ w with radio := { w.radio with sta := false, target := none } }).emit Event.disconnect

/-- Model of `WiFi.scanComplete()`. -/
def WiFi_scanComplete (w : World) : Int :=
  match w.radio.scan with
  | ScanState.notStarted => WIFI_SCAN_FAILED
  | ScanState.running => WIFI_SCAN_RUNNING
  | ScanState.ready aps => (aps.length : Int)

/-- Model of `WiFi.scanNetworks(true)`: start an asynchronous scan. -/
def WiFi_scanNetworks (w : World) : World :=
  ({ w with radio := { w.radio with scan := ScanState.running } }).emit Event.scanNetworks

/-- Model of `WiFi.scanDelete()`. -/
def WiFi_scanDelete (w : World) : World :=
  ({ w with radio := { w.radio with scan := ScanState.notStarted } }).emit Event.scanDelete

/-- Model of `WiFi.SSID(i)`. -/
def WiFi_SSID (w : World) (i : Nat) : Str :=
  match w.radio.scan with
  | ScanState.ready aps => ((aps.get? i).map AccessPoint.ssid).getD []
  | _ => []

/-- Model of `WiFi.encryptionType(i)`. -/
def WiFi_encryptionType (w : World) (i : Nat) : Nat :=
  match w.radio.scan with
  | ScanState.ready aps => ((aps.get? i).map AccessPoint.encryption).getD WIFI_AUTH_OPEN
  | _ => WIFI_AUTH_OPEN

/-! ## Credential store operations -/

/-- `ESPConnectClass::load_sta_credentials`. -/
def load_sta_credentials (w : World) : World :=
  { w with
    _sta_ssid := w.prefs.getString Key.ssid [],
    _sta_password := w.prefs.getString Key.password [] }

/-- `ESPConnectClass::isConfigured`: the state after the call and its result. -/
def isConfigured (w : World) : World × Bool :=
  let w1 := load_sta_credentials w
  (w1, decide (w1._sta_ssid.length > 0))

/-- `ESPConnectClass::getSSID`. -/
def getSSID (w : World) : Str := w._sta_ssid

/-- `ESPConnectClass::getPassword`. -/
def getPassword (w : World) : Str := w._sta_password

/-- `ESPConnectClass::erase`: the state after the call and its result. -/
def erase (w : World) : World × Bool :=
  let p1 := (w.prefs.putString w.nvsWritable Key.ssid []).1
  let p2 := (p1.putString w.nvsWritable Key.password []).1
  (WiFi_disconnect { w with prefs := p2 }, true)

/-- `ESPConnectClass::autoConnect`. -/
def autoConnect (ssid password : Str) (timeout : Nat) (w : World) : World :=
  { w with
    _auto_connect_ssid := ssid,
    _auto_connect_password := password,
    _auto_connect_timeout := timeout }

/-! ## Route handlers of `start_portal` -/

/-- Replace every occurrence of the byte `c` by the bytes `r`, as
`String::replace` does for a one-character pattern. -/
def replaceByte (c : Nat) (r : Str) (s : Str) : Str :=
  s.flatMap (fun x => if x = c then r else [x])

/-- The two `replace` calls applied to a network name (lines 60-61):
backslash first, then double quote. -/
def escapeName (ssid : Str) : Str :=
  replaceByte 34 [92, 34] (replaceByte 92 [92, 92] ssid)

/-- One iteration of the loop on lines 57-67: what is appended to `json` for
index `i` when `scanComplete()` returned `n`. -/
def scanEntry (w : World) (n : Int) (i : Nat) : Str :=
  let ssid := escapeName (WiFi_SSID w i)
  lit "\x7b" ++ (lit "\"name\":\"" ++ ssid ++ lit "\",")
    ++ (lit "\"open\":" ++ (if WiFi_encryptionType w i = WIFI_AUTH_OPEN then lit "true" else lit "false"))
    ++ lit "\x7d"
    ++ (if (i : Int) ≠ n - 1 then lit "," else [])

/-- The `for` loop on lines 57-67, starting from `json = "["`. -/
def scanJson (w : World) (n : Int) : Str :=
  (List.range n.toNat).foldl (fun json i => json ++ scanEntry w n i) (lit "[")

/-- Handler of `GET /espconnect/scan` (lines 48-76). -/
def scanGET (w : World) : World × Response :=
  let n := WiFi_scanComplete w
  if n = WIFI_SCAN_FAILED then
    (WiFi_scanNetworks w, send 202)
  else if n = WIFI_SCAN_RUNNING then
    (w, send 202)
  else
    let json := scanJson w n
    let w1 := WiFi_scanDelete w
    let w2 := if WiFi_scanComplete w1 = -2 then WiFi_scanNetworks w1 else w1
    (w2, sendJson 200 (json ++ lit "]"))

/-- Handler of `POST /espconnect/connect` (lines 79-110).  The locals `ssid`
and `password` are the form fields cut at their first zero byte (lines 81-82);
being C strings already, they pass unchanged through the `c_str()` of lines
96, 97 and 104.  The local `ok` is initialised to 0 and never assigned, as in
the source. -/
def connectPOST (ssidParam passwordParam : Option Str) (w : World) : World × Response :=
  let ssid : Str := formField ssidParam
  let password : Str := formField passwordParam
  if ssid.length ≤ 0 then
    (w, sendJson 403 (lit "\x7b\"message\":\"Invalid SSID\"\x7d"))
  else if ssid.length > 32 ∨ password.length > 64 then
    (w, sendJson 403
      (lit "\x7b\"message\":\"Credentials exceed character limit of 32 & 64 respectively.\"\x7d"))
  else
    let ok : Int := 0
    let p1 := (w.prefs.putString w.nvsWritable Key.ssid ssid).1
    let p2 := (p1.putString w.nvsWritable Key.password password).1
    let w1 := { w with prefs := p2 }
    if ok = ESP_OK then
      let w2 := { w1 with configured := true, _sta_ssid := ssid, _sta_password := password }
      let w3 := WiFi_begin w2._sta_ssid w2._sta_password w2
      (w3, sendJson 200 (lit "\x7b\"message\":\"Credentials Saved. Rebooting...\"\x7d"))
    else
      (w1, sendJson 500
        (lit "\x7b\"message\":\"Error while saving WiFi Credentials: " ++ lit (toString ok)
          ++ lit "\"\x7d"))

/-- Handler of `GET /espconnect` (lines 112-116). -/
def indexGET (w : World) : World × Response := (w, sendPage)

/-- The not-found handler currently installed on the server: the portal page
while the portal is up (lines 118-126), a plain 404 after teardown (lines
149-151) and for a server on which none was installed. -/
def notFoundHandler (w : World) : World × Response :=
  match w._server.notFound with
  | NotFound.portalPage => (w, sendPage)
  | NotFound.plain404 => (w, send 404)
  | NotFound.unset => (w, send 404)

/-! ## Environment, clock and wait loops -/

/-- Something that reaches the device while the portal waits: an HTTP request,
or the completion of a running scan with its results. -/
inductive Incoming where
  | http (req : Request)
  | scanDone (aps : List AccessPoint)
deriving DecidableEq, Repr

/-- What the collaborators report to one call of `begin`.
* `staStart`: the `millis()` reading stored in `lastMillis` on line 209;
* `staLink k`, `staMillis k`: whether `WiFi.status() == WL_CONNECTED`, and the
  `millis()` reading, at the `k`-th evaluation of the loop guard on line 210;
* `staFinal`: whether `WiFi.status() == WL_CONNECTED` on line 223;
* `portalStart`, `portalLink k`, `portalMillis k`: the same for lines 133-134;
* `incoming k`: what the device receives before the `k`-th evaluation of the
  portal loop guard. -/
structure Env where
  staStart : Nat
  staLink : Nat → Bool
  staMillis : Nat → Nat
  staFinal : Bool
  portalStart : Nat
  portalLink : Nat → Bool
  portalMillis : Nat → Nat
  incoming : Nat → List Incoming

/-- A `millis()` reading as an `unsigned long`. -/
def millis (reading : Nat) : Nat := reading % 2 ^ 32

/-- The expression `(unsigned long)(millis() - lastMillis)` for two 32-bit
readings: subtraction modulo `2 ^ 32`. -/
def elapsed (now lastMillis : Nat) : Nat := (now + 2 ^ 32 - lastMillis) % 2 ^ 32

/-- Guard shared by both wait loops (lines 134 and 210):
`WiFi.status() != WL_CONNECTED && (unsigned long)(millis() - lastMillis) < timeout`. -/
def waitGuard (link : Bool) (now lastMillis timeout : Nat) : Bool :=
  !link && decide (elapsed now lastMillis < timeout)

/-- The comparison the guard does not use: `millis() < lastMillis + timeout`
in 32-bit arithmetic. -/
def absoluteGuard (link : Bool) (now lastMillis timeout : Nat) : Bool :=
  !link && decide (now < (lastMillis + timeout) % 2 ^ 32)

/-- The station wait loop of `begin` (lines 210-214) from its `k`-th guard
evaluation on; `true` when the loop exits within `fuel` evaluations.  The loop
body only prints and sleeps. -/
def stationWait (env : Env) (timeout lastMillis : Nat) : Nat → Nat → Bool
  | 0, _ => false
  | fuel + 1, k =>
    if waitGuard (env.staLink k) (millis (env.staMillis k)) lastMillis timeout then
      stationWait env timeout lastMillis fuel (k + 1)
    else true

/-- Dispatch of a request by the server: a registered route runs its handler,
the rewrite of `/` applies to clients of the access point, everything else
goes to the not-found handler.  A handler that an earlier session left in the
list is taken to behave like the current one. -/
def serve (req : Request) (w : World) : World × Response :=
  match req with
  | Request.scan => if w._server.serves Route.scanGET then scanGET w else notFoundHandler w
  | Request.connect s p =>
    if w._server.serves Route.connectPOST then connectPOST s p w else notFoundHandler w
  | Request.index => if w._server.serves Route.indexGET then indexGET w else notFoundHandler w
  | Request.root viaAP =>
    if w._server.rewritesRoot && viaAP && w._server.serves Route.indexGET then indexGET w
    else notFoundHandler w
  | Request.other => notFoundHandler w

/-- Effect of one incoming item: a request is served and the reply recorded; a
scan completion turns a running scan into ready results. -/
def deliver (w : World) (x : Incoming) : World :=
  match x with
  | Incoming.http req =>
    let out := serve req w
    out.1.emit (Event.reply req out.2)
  | Incoming.scanDone aps =>
    match w.radio.scan with
    | ScanState.running => { w with radio := { w.radio with scan := ScanState.ready aps } }
    | _ => w

/-- The portal wait loop (lines 134-137) from its `k`-th guard evaluation on.
The second component is `true` when the loop exits within `fuel` evaluations. -/
def portalWait (env : Env) (lastMillis : Nat) : Nat → Nat → World → World × Bool
  | 0, _, w => (w, false)
  | fuel + 1, k, w =>
    let w1 := (env.incoming k).foldl deliver w
    if waitGuard (env.portalLink k) (millis (env.portalMillis k)) lastMillis
        w1._auto_connect_timeout then
      portalWait env lastMillis fuel (k + 1) (w1.emit Event.dnsProcess)
    else (w1, true)

/-! ## Server and DNS calls -/

/-- Model of `auto x = _server->on(...)` (lines 48, 79, 112) for one of the
three routes.  The server allocates the handler with `new`, appends the
pointer to its list and returns a reference to the object
(`AsyncCallbackWebHandler& on(...)`).  A declaration with plain `auto` (not
`auto&`) never declares a reference, so the local `x` is a separate object
copy-initialised from that handler; its address is `Obj.stack x` and the
server's list does not contain it. -/
def server_on (r : Route) (w : World) : World :=
  ({ w with _server := { w._server with
      handlers := w._server.handlers ++ [(Obj.heap w._server.allocated, r)],
      allocated := w._server.allocated + 1 } }).emit (Event.on r)

/-- Model of `_server->removeHandler(p)` (`bool removeHandler(AsyncWebHandler*)`):
the server drops from its list the handler whose address is `p`, if there is
one, and otherwise leaves the list as it is. -/
def server_removeHandler (p : Obj) (w : World) : World :=
  ({ w with _server := { w._server with
      handlers := w._server.handlers.filter (fun h => decide (h.1 ≠ p)) } }).emit
    (Event.removeHandler p)

/-- Model of `_server->onNotFound(h)`. -/
def server_onNotFound (h : NotFound) (w : World) : World :=
  ({ w with _server := { w._server with notFound := h } }).emit (Event.onNotFound h)

/-- Model of `auto portalRewrite = _server->rewrite("/", "/espconnect").setFilter(ON_AP_FILTER)`:
the server allocates the rewrite and appends it to its list; the local
`portalRewrite` is a copy, as for the handlers. -/
def server_rewrite (w : World) : World :=
  ({ w with _server := { w._server with
      rewrites := w._server.rewrites ++ [Obj.heap w._server.allocated],
      allocated := w._server.allocated + 1 } }).emit Event.rewrite

/-- Model of `_server->removeRewrite(p)`: the server drops from its list the
rewrite whose address is `p`, if there is one. -/
def server_removeRewrite (p : Obj) (w : World) : World :=
  ({ w with _server := { w._server with
      rewrites := w._server.rewrites.filter (fun x => decide (x ≠ p)) } }).emit
    (Event.removeRewrite p)

/-- Model of `_server->begin()`. -/
def server_begin (w : World) : World :=
  ({ w with _server := { w._server with begun := true } }).emit Event.serverBegin

/-- Lines 44-46: `_dns = new DNSServer()`, `setErrorReplyCode`, `start`. -/
def dns_start (w : World) : World :=
  ({ w with _dns := some { running := true } }).emit Event.dnsStart

/-- Lines 153-155: `_dns->stop()`, `delete _dns`, `_dns = nullptr`. -/
def dns_stop (w : World) : World :=
  ({ w with _dns := none }).emit Event.dnsStop

/-! ## `start_portal` and `begin` -/

/-- Lines 32-131 of `start_portal`: everything before the wait loop. -/
def portalSetup (w : World) : World :=
  let w1 := { w with configured := false }
  let w2 := WiFi_mode WifiMode.WIFI_AP_STA w1
  let w3 := WiFi_softAP w2._auto_connect_ssid w2._auto_connect_password w2
  let w4 := if w3._sta_ssid ≠ [] then WiFi_begin w3._sta_ssid w3._sta_password w3 else w3
  let w5 := dns_start w4
  let w6 := server_on Route.scanGET w5
  let w7 := server_on Route.connectPOST w6
  let w8 := server_on Route.indexGET w7
  let w9 := server_onNotFound NotFound.portalPage w8
  let w10 := server_rewrite w9
  server_begin w10

/-- Lines 145-165 of `start_portal`: everything after the wait loop, with the
returned value.  The arguments `&indexGET`, `&scanGET`, `&connectPOST` and
`&portalRewrite` are the addresses of the locals declared with `auto`. -/
def portalTeardown (w : World) : World × Bool :=
  let w1 := server_removeHandler (Obj.stack Local.indexGET) w
  let w2 := server_removeHandler (Obj.stack Local.scanGET) w1
  let w3 := server_removeHandler (Obj.stack Local.connectPOST) w2
  let w4 := server_removeRewrite (Obj.stack Local.portalRewrite) w3
  let w5 := server_onNotFound NotFound.plain404 w4
  let w6 := dns_stop w5
  let w7 := WiFi_softAPdisconnect w6
  if w7.configured then
    let w8 := WiFi_mode WifiMode.WIFI_STA w7
    (WiFi_begin w8._sta_ssid w8._sta_password w8, true)
  else (w7, false)

/-- `ESPConnectClass::start_portal`.  The result is `none` when the wait loop
has not exited within `fuel` guard evaluations. -/
def start_portal (env : Env) (fuel : Nat) (w : World) : World × Option Bool :=
  let w1 := portalSetup w
  let lastMillis := millis env.portalStart
  let out := portalWait env lastMillis fuel 0 w1
  if out.2 then
    let fin := portalTeardown out.1
    (fin.1, some fin.2)
  else (out.1, none)

/-- Lines 222-229 of `begin`: the decision taken once the station attempt is
over or was skipped. -/
def beginDecide (env : Env) (fuel : Nat) (w : World) : World × Option Bool :=
  if !env.staFinal then start_portal env fuel w else (w, some true)

/-- Lines 198-206 of `begin`: the station join with the loaded credentials. -/
def stationJoin (w : World) : World :=
  let w1 := (w.emit (Event.persistent false)).emit (Event.setAutoConnect false)
  let w2 := WiFi_mode WifiMode.WIFI_STA w1
  WiFi_begin w2._sta_ssid w2._sta_password w2

/-- `ESPConnectClass::begin`.  The result is `none` when a wait loop has not
exited within `fuel` guard evaluations. -/
def begin (env : Env) (fuel : Nat) (server : Server) (timeout : Nat) (w : World) :
    World × Option Bool :=
  let w0 := load_sta_credentials { w with _server := server }
  if w0._sta_ssid ≠ [] then
    let w1 := stationJoin w0
    let lastMillis := millis env.staStart
    if stationWait env timeout lastMillis fuel 0 then beginDecide env fuel w1
    else (w1, none)
  else beginDecide env fuel w0

/-- `ESPConnectClass::isConnected`, given what `WiFi.status()` reports. -/
def isConnected (link : Bool) : Bool := link

/-! ## Definitions used to state the properties -/

/-- The JSON object the scan handler emits for one access point, without any
separator. -/
def apObject (a : AccessPoint) : Str :=
  lit "\x7b" ++ (lit "\"name\":\"" ++ escapeName a.ssid ++ lit "\",")
    ++ (lit "\"open\":" ++ (if a.encryption = WIFI_AUTH_OPEN then lit "true" else lit "false"))
    ++ lit "\x7d"

/-- The credentials carried by an accepted submission: the event is a reply
with status 200 to a connect request. -/
def Event.accepted : Event → Option (Str × Str)
  | Event.reply (Request.connect s p) resp =>
    if resp.status = 200 then some (formField s, formField p) else none
  | _ => none

/-- The credentials of the last accepted submission in a run of events. -/
def lastAccepted (evs : List Event) : Option (Str × Str) :=
  evs.foldl (fun acc e => match e.accepted with
    | some c => some c
    | none => acc) none

/-- A device whose store holds the network "old" with password "oldpw" and
whose storage engine rejects writes. -/
def staleDevice : World :=
  World.boot { ssid := some (lit "old"), password := some (lit "oldpw") } false

/-- A device that was never configured and whose storage engine works. -/
def freshDevice : World := World.boot { ssid := none, password := none } true

/-- A 42-byte ssid field: "a", a zero byte, then forty times "b". -/
def longFieldWithZero : Str := 97 :: 0 :: List.replicate 40 98

/-- A device holding the credentials ("home", "secret") of a network that is
out of reach. -/
def storedDevice : World :=
  World.boot { ssid := some (lit "home"), password := some (lit "secret") } true

/-- An environment in which the link never comes up.  The clock starts 10 ms
before it wraps; the station loop sees it advance by 3000 ms per evaluation
and the portal loop by 70000 ms.  One client submits ("cafe", "latte") before
the second evaluation of the portal guard. -/
def Env.unreachable : Env :=
  { staStart := 4294967286,
    staLink := fun _ => false,
    staMillis := fun k => 4294967306 + 3000 * k,
    staFinal := false,
    portalStart := 4294967286,
    portalLink := fun _ => false,
    portalMillis := fun k => 4294967306 + 70000 * k,
    incoming := fun k =>
      if k = 1 then [Incoming.http (Request.connect (some (lit "cafe")) (some (lit "latte")))]
      else [] }

/-- An environment in which the radio reports an established link at once. -/
def Env.linked : Env :=
  { staStart := 0,
    staLink := fun _ => true,
    staMillis := fun _ => 0,
    staFinal := true,
    portalStart := 0,
    portalLink := fun _ => true,
    portalMillis := fun _ => 0,
    incoming := fun _ => [] }

/-- Two scan results: an open network and a protected one whose name holds a
double quote and a backslash. -/
def sampleScan : List AccessPoint :=
  [{ ssid := lit "cafe", encryption := 0 }, { ssid := [97, 34, 98, 92], encryption := 3 }]

/-- The fresh device with the radio's scan state replaced. -/
def scanDevice (st : ScanState) : World :=
  { freshDevice with radio := { freshDevice.radio with scan := st } }

/-! ### JSON reading of the scan body

A reader for the JSON texts of the shape the scan route documents,
`[{"name": <string>, "open": <bool>}, ...]`, following RFC 8259: inside a
string a backslash starts an escape, a double quote ends the string, and bytes
below 0x20 may not appear unescaped.  The `\uXXXX` escape, which the handler
never emits, is not read. -/

/-- The byte denoted by the escape `\e` inside a JSON string. -/
def jsonUnescape (e : Nat) : Option Nat :=
  if e = 34 then some 34
  else if e = 92 then some 92
  else if e = 47 then some 47
  else if e = 98 then some 8
  else if e = 102 then some 12
  else if e = 110 then some 10
  else if e = 114 then some 13
  else if e = 116 then some 9
  else none

/-- Read a JSON string whose opening quote was consumed: the decoded bytes and
the input after the closing quote.  The flag tells that the previous byte was
an unescaped backslash. -/
def jsonString : Bool → Str → Option (Str × Str)
  | _, [] => none
  | true, e :: rest =>
    match jsonUnescape e, jsonString false rest with
    | some b, some out => some (b :: out.1, out.2)
    | _, _ => none
  | false, c :: rest =>
    if c = 34 then some ([], rest)
    else if c = 92 then jsonString true rest
    else if c < 32 then none
    else
      match jsonString false rest with
      | some out => some (c :: out.1, out.2)
      | none => none

/-- Consume the token `tok` at the head of the input. -/
def expect : Str → Str → Option Str
  | [], s => some s
  | _ :: _, [] => none
  | t :: ts, c :: s => if t = c then expect ts s else none

/-- Read `true` or `false`. -/
def parseBool (s : Str) : Option (Bool × Str) :=
  match expect (lit "true") s with
  | some r => some (true, r)
  | none =>
    match expect (lit "false") s with
    | some r => some (false, r)
    | none => none

/-- Read one object `{"name":<string>,"open":<bool>}`. -/
def parseObject (s : Str) : Option ((Str × Bool) × Str) :=
  match expect (lit "\x7b\"name\":\"") s with
  | none => none
  | some s1 =>
    match jsonString false s1 with
    | none => none
    | some (name, s2) =>
      match expect (lit ",\"open\":") s2 with
      | none => none
      | some s3 =>
        match parseBool s3 with
        | none => none
        | some (b, s4) =>
          match expect (lit "\x7d") s4 with
          | none => none
          | some s5 => some ((name, b), s5)

/-- Read objects separated by commas up to the closing bracket, which must end
the input. -/
def parseElems : Nat → Str → Option (List (Str × Bool))
  | 0, _ => none
  | fuel + 1, s =>
    match parseObject s with
    | none => none
    | some (x, s1) =>
      match s1 with
      | [] => none
      | c :: s2 =>
        if c = 93 then (if s2 = [] then some [x] else none)
        else if c = 44 then
          match parseElems fuel s2 with
          | some xs => some (x :: xs)
          | none => none
        else none

/-- Read a whole scan body: the decoded name and the `open` flag of every
element, or `none` when the text is not JSON of the documented shape. -/
def parseScanBody (body : Str) : Option (List (Str × Bool)) :=
  match body with
  | [] => none
  | c :: s =>
    if c = 91 then (if s = [93] then some [] else parseElems body.length s)
    else none

/-- What a client should read from a scan body: every name as it is, with
`open` true exactly for `WIFI_AUTH_OPEN`. -/
def scanMeaning (aps : List AccessPoint) : List (Str × Bool) :=
  aps.map (fun a => (a.ssid, decide (a.encryption = WIFI_AUTH_OPEN)))

/-- The body of the 200 answer of the scan handler. -/
def scanBody (w : World) : Body := (scanGET w).2.body

/-- A scan result whose only network is named by the single byte 0x0A (line
feed). -/
def lineFeedScan : List AccessPoint := [{ ssid := [10], encryption := 0 }]

/-! ### Portal sessions -/

/-- The collaborator calls of `portalSetup`, in order.  The background join is
present only when credentials are stored. -/
def portalSetupEvents (w : World) : List Event :=
  [Event.mode WifiMode.WIFI_AP_STA, Event.softAP w._auto_connect_ssid w._auto_connect_password]
    ++ (if w._sta_ssid ≠ [] then [Event.join w._sta_ssid w._sta_password] else [])
    ++ [Event.dnsStart, Event.on Route.scanGET, Event.on Route.connectPOST,
        Event.on Route.indexGET, Event.onNotFound NotFound.portalPage, Event.rewrite,
        Event.serverBegin]

/-- The collaborator calls of `portalTeardown` that precede its final test of
`configured`. -/
def portalTeardownEvents : List Event :=
  [Event.removeHandler (Obj.stack Local.indexGET), Event.removeHandler (Obj.stack Local.scanGET),
    Event.removeHandler (Obj.stack Local.connectPOST),
    Event.removeRewrite (Obj.stack Local.portalRewrite),
    Event.onNotFound NotFound.plain404, Event.dnsStop, Event.softAPdisconnect]

/-- What holds of the state `w` reached during the wait loop of a session that
started waiting in state `w0`, where `s` lists the calls made since:
the server and the timeout are untouched, `configured` tells whether a
submission was accepted, the credential fields hold the last accepted pair,
and as long as none was accepted the fields are unchanged and no join was
issued. -/
structure SessionInv (w0 w : World) (s : List Event) : Prop where
  log : w.log = w0.log ++ s
  server : w._server = w0._server
  timeout : w._auto_connect_timeout = w0._auto_connect_timeout
  flag : w.configured = (lastAccepted s).isSome
  creds : ∀ c, lastAccepted s = some c → c = (w._sta_ssid, w._sta_password)
  quiet : w.configured = false →
    w._sta_ssid = w0._sta_ssid ∧ w._sta_password = w0._sta_password ∧
    ∀ a b, Event.join a b ∉ s

/-! ## Credential store and connect route -/

theorem getString_putString_same (p : Preferences) (k : Key) (v d : Str) :
    ((p.putString true k v).1).getString k d = v := by
  cases k <;> simp [Preferences.putString, Preferences.getString]

theorem getString_putString_other (ok : Bool) (p : Preferences) (k k2 : Key) (v d : Str)
    (h : k ≠ k2) : ((p.putString ok k v).1).getString k2 d = p.getString k2 d := by
  cases ok <;> cases k <;> cases k2 <;> simp_all [Preferences.putString, Preferences.getString]

theorem c_str_of_no_zero (s : Str) (h : 0 ∉ s) : c_str s = s := by
  unfold c_str
  rw [List.takeWhile_eq_self_iff]
  intro b hb
  have : b ≠ 0 := fun e => h (e ▸ hb)
  simpa using this

theorem formField_some (v : Str) : formField (some v) = c_str v := rfl

theorem c_str_c_str (s : Str) : c_str (c_str s) = c_str s := by
  unfold c_str
  exact List.takeWhile_takeWhile _ _ s ▸ by simp

/-- C1 (counterexample): on the fresh device, whose store accepts writes, the
3-byte ssid "a", 0, "b" with password "secret" is answered 200, but a reload
returns "a", not the submitted ssid; the 3-byte ssid 0, "a", "b" is answered
403; and on the device whose storage engine rejects writes the submission
("home", "secret") is answered 200 while a reload returns "old". -/
theorem connect_roundtrip_fails :
    ([97, 0, 98] : Str).length = 3 ∧
    (connectPOST (some [97, 0, 98]) (some (lit "secret")) freshDevice).2.status = 200 ∧
    getSSID (load_sta_credentials
      (connectPOST (some [97, 0, 98]) (some (lit "secret")) freshDevice).1) = [97] ∧
    getSSID (load_sta_credentials
      (connectPOST (some [97, 0, 98]) (some (lit "secret")) freshDevice).1) ≠ [97, 0, 98] ∧
    (connectPOST (some [0, 97, 98]) (some (lit "secret")) freshDevice).2.status = 403 ∧
    (connectPOST (some (lit "home")) (some (lit "secret")) staleDevice).2.status = 200 ∧
    getSSID (load_sta_credentials
      (connectPOST (some (lit "home")) (some (lit "secret")) staleDevice).1) ≠ lit "home" := by
  decide

/-- C1 (amended): when the storage engine accepts the writes, for every prior
contents of the store, a submission whose ssid and password, each cut at its
first zero byte, have 1 to 32 and at most 64 bytes (the password field may be
absent) is answered with status 200, and a following `load_sta_credentials`
makes `getSSID` / `getPassword` return exactly the cut pair; for a field
without zero byte that is exactly the submitted value. -/
theorem connect_valid_roundtrip (w : World) (ssid : Str) (password : Option Str)
    (hw : w.nvsWritable = true)
    (h1 : 1 ≤ (c_str ssid).length) (h2 : (c_str ssid).length ≤ 32)
    (h3 : (formField password).length ≤ 64) :
    (connectPOST (some ssid) password w).2.status = 200 ∧
    getSSID (load_sta_credentials (connectPOST (some ssid) password w).1) = c_str ssid ∧
    getPassword (load_sta_credentials (connectPOST (some ssid) password w).1)
      = formField password ∧
    (0 ∉ ssid →
      getSSID (load_sta_credentials (connectPOST (some ssid) password w).1) = ssid) ∧
    (∀ p, password = some p → 0 ∉ p →
      getPassword (load_sta_credentials (connectPOST (some ssid) password w).1) = p) := by
  have hne : ¬ (c_str ssid).length = 0 := by omega
  have hlim : ¬ (32 < (c_str ssid).length ∨ 64 < (formField password).length) := by omega
  have hs : getSSID (load_sta_credentials (connectPOST (some ssid) password w).1)
      = c_str ssid := by
    simp [connectPOST, formField_some, hne, hlim, hw, ESP_OK, WiFi_begin, World.emit,
      load_sta_credentials, getSSID, Preferences.putString, Preferences.getString]
  have hp : getPassword (load_sta_credentials (connectPOST (some ssid) password w).1)
      = formField password := by
    simp [connectPOST, formField_some, hne, hlim, hw, ESP_OK, WiFi_begin, World.emit,
      load_sta_credentials, getPassword, Preferences.putString, Preferences.getString]
  refine ⟨?_, hs, hp, ?_, ?_⟩
  · simp [connectPOST, formField_some, hne, hlim, ESP_OK, sendJson]
  · intro h0
    rw [hs, c_str_of_no_zero ssid h0]
  · intro p hpe h0
    rw [hp, hpe, formField_some, c_str_of_no_zero p h0]

/-- On the fresh device the submission ("home", "secret") is answered with 200
and is what a reload returns. -/
theorem connect_valid_roundtrip_witness :
    (connectPOST (some (lit "home")) (some (lit "secret")) freshDevice).2.status = 200 ∧
    getSSID (load_sta_credentials
      (connectPOST (some (lit "home")) (some (lit "secret")) freshDevice).1) = lit "home" ∧
    getPassword (load_sta_credentials
      (connectPOST (some (lit "home")) (some (lit "secret")) freshDevice).1) = lit "secret" :=
  ⟨(connect_valid_roundtrip freshDevice (lit "home") (some (lit "secret")) rfl
      (by decide) (by decide) (by decide)).1,
    (connect_valid_roundtrip freshDevice (lit "home") (some (lit "secret")) rfl
      (by decide) (by decide) (by decide)).2.2.2.1 (by decide),
    (connect_valid_roundtrip freshDevice (lit "home") (some (lit "secret")) rfl
      (by decide) (by decide) (by decide)).2.2.2.2 (lit "secret") rfl (by decide)⟩

/-- C2 (counterexample): the 42-byte ssid "a", 0, "b" ... "b" is longer than
32 bytes, yet on the fresh device the handler sees "a", answers 200, writes
the store, sets `configured` and the fields and issues the join. -/
theorem connect_accepts_long_field_with_zero :
    longFieldWithZero.length = 42 ∧
    (connectPOST (some longFieldWithZero) (some (lit "secret")) freshDevice).2.status = 200 ∧
    (connectPOST (some longFieldWithZero) (some (lit "secret")) freshDevice).1.prefs
      = { ssid := some [97], password := some (lit "secret") } ∧
    (connectPOST (some longFieldWithZero) (some (lit "secret")) freshDevice).1._sta_ssid
      = [97] ∧
    (connectPOST (some longFieldWithZero) (some (lit "secret")) freshDevice).1.configured
      = true ∧
    (connectPOST (some longFieldWithZero) (some (lit "secret")) freshDevice).1.log
      = [Event.join [97] (lit "secret")] := by
  decide

/-- C2 (amended): a submission whose ssid, cut at its first zero byte, is
empty (an absent field included) or longer than 32 bytes, or whose password,
cut at its first zero byte, is longer than 64 bytes, is answered with status
403 (with the body `{"message":"Invalid SSID"}` when the cut ssid is empty)
and leaves the whole state as it was: persisted keys, `_sta_ssid`,
`_sta_password`, the `configured` flag, the radio and the log of collaborator
calls, so no station join is issued. -/
theorem connect_invalid_rejected (w : World) (ssid password : Option Str)
    (h : (formField ssid).length = 0 ∨ 32 < (formField ssid).length
      ∨ 64 < (formField password).length) :
    (connectPOST ssid password w).2.status = 403 ∧
    ((formField ssid).length = 0 →
      (connectPOST ssid password w).2.body
        = Body.text (lit "\x7b\"message\":\"Invalid SSID\"\x7d")) ∧
    (connectPOST ssid password w).1 = w ∧
    (connectPOST ssid password w).1.prefs = w.prefs ∧
    (connectPOST ssid password w).1._sta_ssid = w._sta_ssid ∧
    (connectPOST ssid password w).1._sta_password = w._sta_password ∧
    (connectPOST ssid password w).1.configured = w.configured ∧
    (connectPOST ssid password w).1.log = w.log := by
  by_cases h0 : (formField ssid).length = 0
  · simp [connectPOST, h0, sendJson]
  · have hlim : 32 < (formField ssid).length ∨ 64 < (formField password).length := by
      rcases h with h | h | h
      · exact absurd h h0
      · exact Or.inl h
      · exact Or.inr h
    simp [connectPOST, h0, hlim, sendJson]

/-- On the fresh device a submission without ssid field is answered with 403
and the given body, and changes nothing. -/
theorem connect_invalid_rejected_witness :
    (connectPOST none (some (lit "secret")) freshDevice).2.status = 403 ∧
    (connectPOST none (some (lit "secret")) freshDevice).2.body
      = Body.text (lit "\x7b\"message\":\"Invalid SSID\"\x7d") ∧
    (connectPOST none (some (lit "secret")) freshDevice).1 = freshDevice :=
  ⟨(connect_invalid_rejected freshDevice none (some (lit "secret")) (Or.inl rfl)).1,
    (connect_invalid_rejected freshDevice none (some (lit "secret")) (Or.inl rfl)).2.1 rfl,
    (connect_invalid_rejected freshDevice none (some (lit "secret")) (Or.inl rfl)).2.2.1⟩

/-- The connect handler never answers 500: its `else` branch tests a local
that is always `ESP_OK`. -/
theorem connect_never_500 (w : World) (ssid password : Option Str) :
    (connectPOST ssid password w).2.status ≠ 500 := by
  unfold connectPOST
  simp only [ESP_OK]
  split
  · simp [sendJson]
  · split
    · simp [sendJson]
    · simp [sendJson]

/-- C3 (what the code does at the failing input): on a device whose storage
engine rejects writes, the length-valid submission ("home", "secret") is
answered with 200, not 500; `_sta_ssid` / `_sta_password` become the submitted
pair and `configured` is set, although the store still holds ("old", "oldpw")
and a reload returns that pair. -/
theorem connect_write_failure_unreported :
    (connectPOST (some (lit "home")) (some (lit "secret")) staleDevice).2.status = 200 ∧
    getSSID (connectPOST (some (lit "home")) (some (lit "secret")) staleDevice).1
      = lit "home" ∧
    getPassword (connectPOST (some (lit "home")) (some (lit "secret")) staleDevice).1
      = lit "secret" ∧
    (connectPOST (some (lit "home")) (some (lit "secret")) staleDevice).1.configured = true ∧
    (connectPOST (some (lit "home")) (some (lit "secret")) staleDevice).1.prefs
      = staleDevice.prefs ∧
    getSSID (load_sta_credentials
      (connectPOST (some (lit "home")) (some (lit "secret")) staleDevice).1) = lit "old" := by
  decide

/-- C6 (counterexample): on the device whose storage engine rejects writes,
`erase` returns true and erases nothing: the store still holds
("old", "oldpw"), a reload returns "old" and `isConfigured` is true. -/
theorem erase_on_failing_store_keeps_keys :
    (erase staleDevice).2 = true ∧
    (erase staleDevice).1.prefs = { ssid := some (lit "old"), password := some (lit "oldpw") } ∧
    getSSID (load_sta_credentials (erase staleDevice).1) = lit "old" ∧
    getPassword (load_sta_credentials (erase staleDevice).1) = lit "oldpw" ∧
    (isConfigured (erase staleDevice).1).2 = true := by
  decide

/-- C6 (amended): `erase` returns true; when the storage engine accepts the writes it
leaves both persisted keys equal to the empty string, for every prior contents
of the store, so that a following load yields two empty strings and
`isConfigured` returns false; and calling `erase` twice leaves the same store,
radio, fields and return value as calling it once (only the log of calls
records the second `disconnect`). -/
theorem erase_clears_and_idempotent (w : World) :
    (erase w).2 = true ∧
    (w.nvsWritable = true →
      (erase w).1.prefs = { ssid := some [], password := some [] } ∧
      getSSID (load_sta_credentials (erase w).1) = [] ∧
      getPassword (load_sta_credentials (erase w).1) = [] ∧
      (isConfigured (erase w).1).2 = false) ∧
    (erase w).1.radio.sta = false ∧ (erase w).1.radio.target = none ∧
    (erase (erase w).1).2 = (erase w).2 ∧
    { (erase (erase w).1).1 with log := (erase w).1.log } = (erase w).1 := by
  cases hw : w.nvsWritable <;>
    simp [erase, hw, Preferences.putString, WiFi_disconnect, World.emit, load_sta_credentials,
      getSSID, getPassword, isConfigured, Preferences.getString]

/-- Erasing the stored device empties both keys. -/
theorem erase_clears_and_idempotent_witness :
    (erase storedDevice).2 = true ∧
    (erase storedDevice).1.prefs = { ssid := some [], password := some [] } ∧
    (isConfigured (erase storedDevice).1).2 = false ∧
    (erase (erase storedDevice).1).2 = (erase storedDevice).2 :=
  ⟨(erase_clears_and_idempotent storedDevice).1,
    ((erase_clears_and_idempotent storedDevice).2.1 rfl).1,
    ((erase_clears_and_idempotent storedDevice).2.1 rfl).2.2.2,
    (erase_clears_and_idempotent storedDevice).2.2.2.2.1⟩

theorem foldl_append_flatMap (f : Nat → Str) (l : List Nat) (init : Str) :
    l.foldl (fun json i => json ++ f i) init = init ++ l.flatMap f := by
  induction l generalizing init with
  | nil => simp
  | cons x xs ih => simp [List.foldl_cons, ih, List.append_assoc]

theorem scanEntry_at (w : World) (front rest : List AccessPoint) (a : AccessPoint)
    (hw : w.radio.scan = ScanState.ready (front ++ a :: rest)) :
    scanEntry w ((front.length + (rest.length + 1) : Nat) : Int) front.length
      = apObject a ++ (if rest = [] then [] else lit ",") := by
  have hget : (front ++ a :: rest)[front.length]? = some a := by
    rw [List.getElem?_append_right (Nat.le_refl _)]; simp
  have hs : WiFi_SSID w front.length = a.ssid := by
    simp only [WiFi_SSID, hw, List.get?_eq_getElem?, hget]; rfl
  have he : WiFi_encryptionType w front.length = a.encryption := by
    simp only [WiFi_encryptionType, hw, List.get?_eq_getElem?, hget]; rfl
  unfold scanEntry apObject
  simp only [hs, he]
  cases rest with
  | nil => simp
  | cons b bs =>
    simp
    intro h
    exfalso
    omega

theorem scan_entries_from (w : World) (front aps : List AccessPoint)
    (hw : w.radio.scan = ScanState.ready (front ++ aps)) :
    (List.range' front.length aps.length).flatMap
        (scanEntry w ((front.length + aps.length : Nat) : Int))
      = (lit ",").intercalate (aps.map apObject) := by
  induction aps generalizing front with
  | nil => simp [List.intercalate]
  | cons a rest ih =>
    have hw2 : w.radio.scan = ScanState.ready ((front ++ [a]) ++ rest) := by simpa using hw
    have ih2 := ih (front ++ [a]) hw2
    simp only [List.length_append, List.length_singleton] at ih2
    have hlen : front.length + (a :: rest).length = front.length + 1 + rest.length := by
      simp only [List.length_cons]; omega
    simp only [List.length_cons, List.range'_succ, List.flatMap_cons]
    rw [scanEntry_at w front rest a hw]
    have e : front.length + (rest.length + 1) = front.length + 1 + rest.length := by omega
    rw [e, ih2]
    cases rest with
    | nil => simp [List.intercalate]
    | cons b bs => simp [List.intercalate, List.intersperse]

theorem scanJson_ready (w : World) (aps : List AccessPoint)
    (hw : w.radio.scan = ScanState.ready aps) :
    scanJson w (aps.length : Int) = lit "[" ++ (lit ",").intercalate (aps.map apObject) := by
  unfold scanJson
  rw [foldl_append_flatMap]
  have := scan_entries_from w [] aps (by simpa using hw)
  simp only [List.length_nil, Nat.zero_add] at this
  simp only [Int.toNat_ofNat, List.range_eq_range']
  rw [this]


/-! ## Scan route -/

/-- The scan handler on ready results: it answers 200 with all results in
index order, deletes them and starts the next scan. -/
theorem scanGET_ready (w : World) (aps : List AccessPoint)
    (h : w.radio.scan = ScanState.ready aps) :
    scanGET w = (WiFi_scanNetworks (WiFi_scanDelete w),
      sendJson 200 (lit "[" ++ (lit ",").intercalate (aps.map apObject) ++ lit "]")) := by
  have hn : WiFi_scanComplete w = (aps.length : Int) := by simp [WiFi_scanComplete, h]
  have h1 : ¬ ((aps.length : Int) = WIFI_SCAN_FAILED) := by
    simp only [WIFI_SCAN_FAILED]; omega
  have h2 : ¬ ((aps.length : Int) = WIFI_SCAN_RUNNING) := by
    simp only [WIFI_SCAN_RUNNING]; omega
  have hd : WiFi_scanComplete (WiFi_scanDelete w) = -2 := by
    simp [WiFi_scanComplete, WiFi_scanDelete, World.emit, WIFI_SCAN_FAILED]
  have hout : scanGET w = (WiFi_scanNetworks (WiFi_scanDelete w),
      sendJson 200 (scanJson w (aps.length : Int) ++ lit "]")) := by
    simp [scanGET, hn, h1, h2, hd]
  rw [hout, scanJson_ready w aps h]

/-- C7: the scan handler is a three-way function of the scan state.  With no
scan issued (`scanComplete() == WIFI_SCAN_FAILED`) it starts an asynchronous
scan and answers 202 with an empty body; with a scan running it answers 202
with an empty body and changes nothing; with results ready it answers 200 with
all results in index order, then deletes them, so the radio holds no results
afterwards and the next request is answered 202. -/
theorem scan_handler_three_way (w : World) :
    (w.radio.scan = ScanState.notStarted →
      WiFi_scanComplete w = WIFI_SCAN_FAILED ∧
      (scanGET w).2 = send 202 ∧ (scanGET w).2.body = Body.empty ∧
      (scanGET w).1.radio.scan = ScanState.running ∧
      (scanGET w).1.log = w.log ++ [Event.scanNetworks]) ∧
    (w.radio.scan = ScanState.running →
      WiFi_scanComplete w = WIFI_SCAN_RUNNING ∧
      (scanGET w).2 = send 202 ∧ (scanGET w).2.body = Body.empty ∧
      (scanGET w).1 = w) ∧
    (∀ aps, w.radio.scan = ScanState.ready aps →
      WiFi_scanComplete w = (aps.length : Int) ∧
      (scanGET w).2.status = 200 ∧
      (scanGET w).2.body
        = Body.text (lit "[" ++ (lit ",").intercalate (aps.map apObject) ++ lit "]") ∧
      (∃ rest, (scanGET w).1.log = w.log ++ Event.scanDelete :: rest) ∧
      (∀ l, (scanGET w).1.radio.scan ≠ ScanState.ready l) ∧
      (scanGET (scanGET w).1).2 = send 202) := by
  refine ⟨?_, ?_, ?_⟩
  · intro h
    simp [scanGET, WiFi_scanComplete, h, WiFi_scanNetworks, World.emit, send]
  · intro h
    simp [scanGET, WiFi_scanComplete, h, WIFI_SCAN_FAILED, WIFI_SCAN_RUNNING, send]
  · intro aps h
    have hn : WiFi_scanComplete w = (aps.length : Int) := by simp [WiFi_scanComplete, h]
    rw [scanGET_ready w aps h]
    refine ⟨hn, rfl, rfl, ?_, ?_, ?_⟩
    · exact ⟨[Event.scanNetworks], by simp [WiFi_scanNetworks, WiFi_scanDelete, World.emit]⟩
    · intro l
      simp [WiFi_scanNetworks, WiFi_scanDelete, World.emit]
    · simp [scanGET, WiFi_scanComplete, WiFi_scanNetworks, WiFi_scanDelete, World.emit,
        WIFI_SCAN_FAILED, WIFI_SCAN_RUNNING]

/-- The three cases on the fresh device with each scan state. -/
theorem scan_handler_three_way_witness :
    ((scanGET (scanDevice ScanState.notStarted)).2 = send 202 ∧
      (scanGET (scanDevice ScanState.notStarted)).1.radio.scan = ScanState.running) ∧
    ((scanGET (scanDevice ScanState.running)).2 = send 202 ∧
      (scanGET (scanDevice ScanState.running)).1 = scanDevice ScanState.running) ∧
    ((scanGET (scanDevice (ScanState.ready sampleScan))).2.status = 200 ∧
      (scanGET (scanGET (scanDevice (ScanState.ready sampleScan))).1).2 = send 202) :=
  ⟨⟨((scan_handler_three_way (scanDevice ScanState.notStarted)).1 rfl).2.1,
      ((scan_handler_three_way (scanDevice ScanState.notStarted)).1 rfl).2.2.2.1⟩,
    ⟨((scan_handler_three_way (scanDevice ScanState.running)).2.1 rfl).2.1,
      ((scan_handler_three_way (scanDevice ScanState.running)).2.1 rfl).2.2.2⟩,
    ⟨((scan_handler_three_way (scanDevice (ScanState.ready sampleScan))).2.2 sampleScan rfl).2.1,
      ((scan_handler_three_way (scanDevice (ScanState.ready sampleScan))).2.2
        sampleScan rfl).2.2.2.2.2⟩⟩

/-! ## Timeout guards -/

theorem elapsed_wraps (s d : Nat) (hs : s < 2 ^ 32) (hd : d < 2 ^ 32) :
    elapsed ((s + d) % 2 ^ 32) s = d := by
  unfold elapsed
  omega

/-- C10: both wait loops branch on `waitGuard`, which is wrap-safe.  For a
32-bit start reading `s` and a true elapsed duration `d < 2 ^ 32`, the clock
reads `(s + d) mod 2 ^ 32` and the computed difference is `d`; while no link is
reported, a guard evaluation of the station loop and of the portal loop
continues exactly when `d` is below the timeout and exits otherwise.  The
comparison `millis() < lastMillis + timeout` differs: it can be false although
`d` is below the timeout. -/
theorem wait_guards_wrap_safe (env : Env) (s d timeout fuel k : Nat) (w : World)
    (hs : s < 2 ^ 32) (hd : d < 2 ^ 32)
    (hsl : env.staLink k = false) (hsm : millis (env.staMillis k) = (s + d) % 2 ^ 32)
    (hpl : env.portalLink k = false) (hpm : millis (env.portalMillis k) = (s + d) % 2 ^ 32) :
    elapsed ((s + d) % 2 ^ 32) s = d ∧
    (waitGuard false ((s + d) % 2 ^ 32) s timeout = true ↔ d < timeout) ∧
    (waitGuard false ((s + d) % 2 ^ 32) s timeout = false ↔ timeout ≤ d) ∧
    stationWait env timeout s (fuel + 1) k
      = (if d < timeout then stationWait env timeout s fuel (k + 1) else true) ∧
    portalWait env s (fuel + 1) k w
      = (if d < ((env.incoming k).foldl deliver w)._auto_connect_timeout then
          portalWait env s fuel (k + 1) (((env.incoming k).foldl deliver w).emit Event.dnsProcess)
        else ((env.incoming k).foldl deliver w, true)) ∧
    (∃ s2 d2 t2, s2 < 2 ^ 32 ∧ d2 < 2 ^ 32 ∧ t2 < 2 ^ 32 ∧ d2 < t2 ∧
      waitGuard false ((s2 + d2) % 2 ^ 32) s2 t2 = true ∧
      absoluteGuard false ((s2 + d2) % 2 ^ 32) s2 t2 = false) := by
  have he := elapsed_wraps s d hs hd
  have he2 : elapsed ((s + d) % 4294967296) s = d := by simpa using he
  refine ⟨he, ?_, ?_, ?_, ?_, ?_⟩
  · simp [waitGuard, he2]
  · simp [waitGuard, he2]
  · simp [stationWait, waitGuard, hsl, hsm, he2]
  · simp [portalWait, waitGuard, hpl, hpm, he2]
  · refine ⟨4294967286, 5, 100, by norm_num, by norm_num, by norm_num, by norm_num, ?_, ?_⟩
    · simp [waitGuard, elapsed]
    · simp [absoluteGuard]

/-- A start reading 10 ms before the wrap and 20 ms of true elapsed time. -/
theorem wait_guards_wrap_safe_witness :
    elapsed ((4294967286 + 20) % 2 ^ 32) 4294967286 = 20 ∧
    (waitGuard false ((4294967286 + 20) % 2 ^ 32) 4294967286 5000 = true ↔ 20 < 5000) ∧
    stationWait Env.unreachable 5000 4294967286 (2 + 1) 0
      = (if 20 < 5000 then stationWait Env.unreachable 5000 4294967286 2 (0 + 1) else true) :=
  ⟨(wait_guards_wrap_safe Env.unreachable 4294967286 20 5000 2 0 storedDevice
      (by norm_num) (by norm_num) rfl (by decide) rfl (by decide)).1,
    (wait_guards_wrap_safe Env.unreachable 4294967286 20 5000 2 0 storedDevice
      (by norm_num) (by norm_num) rfl (by decide) rfl (by decide)).2.1,
    (wait_guards_wrap_safe Env.unreachable 4294967286 20 5000 2 0 storedDevice
      (by norm_num) (by norm_num) rfl (by decide) rfl (by decide)).2.2.2.1⟩


/-! ## JSON body of the scan route -/

theorem escapeName_cons (c : Nat) (n : Str) :
    escapeName (c :: n)
      = (if c = 92 then [92, 92] else if c = 34 then [92, 34] else [c]) ++ escapeName n := by
  unfold escapeName replaceByte
  by_cases h1 : c = 92
  · subst h1; simp [List.flatMap_cons, List.flatMap_append]
  · by_cases h2 : c = 34
    · subst h2; simp [List.flatMap_cons, List.flatMap_append]
    · simp [List.flatMap_cons, List.flatMap_append, h1, h2]

theorem jsonString_escapeName (name rest : Str) (h : ∀ c ∈ name, 32 ≤ c) :
    jsonString false (escapeName name ++ 34 :: rest) = some (name, rest) := by
  induction name with
  | nil => simp [escapeName, replaceByte, jsonString]
  | cons c n ih =>
    have hn : ∀ x ∈ n, 32 ≤ x := fun x hx => h x (List.mem_cons_of_mem _ hx)
    have hc : 32 ≤ c := h c (List.mem_cons_self _ _)
    rw [escapeName_cons]
    by_cases h1 : c = 92
    · subst h1; simp [jsonString, jsonUnescape, ih hn]
    · by_cases h2 : c = 34
      · subst h2; simp [jsonString, jsonUnescape, ih hn]
      · have h3 : ¬ c < 32 := by omega
        simp [jsonString, h1, h2, h3, ih hn]

theorem expect_append (tok s : Str) : expect tok (tok ++ s) = some s := by
  induction tok with
  | nil => cases s <;> simp [expect]
  | cons t ts ih => simp [expect, ih]

theorem parseBool_true (s : Str) : parseBool (lit "true" ++ s) = some (true, s) := by
  simp [parseBool, expect_append]

theorem parseBool_false (s : Str) : parseBool (lit "false" ++ s) = some (false, s) := by
  have h : expect (lit "true") (lit "false" ++ s) = none := by
    have e1 : lit "true" = [116, 114, 117, 101] := by decide
    have e2 : lit "false" = [102, 97, 108, 115, 101] := by decide
    rw [e1, e2]; simp [expect]
  simp [parseBool, h, expect_append]

theorem parseObject_apObject (a : AccessPoint) (rest : Str) (h : ∀ c ∈ a.ssid, 32 ≤ c) :
    parseObject (apObject a ++ rest)
      = some ((a.ssid, decide (a.encryption = WIFI_AUTH_OPEN)), rest) := by
  have e1 : lit "\x7b" ++ (lit "\"name\":\"" ++ escapeName a.ssid ++ lit "\",")
      = lit "\x7b\"name\":\"" ++ (escapeName a.ssid ++ 34 :: lit ",") := by
    have a1 : lit "\x7b\"name\":\"" = lit "\x7b" ++ lit "\"name\":\"" := by decide
    have a2 : lit "\"," = 34 :: lit "," := by decide
    rw [a1, a2]; simp [List.append_assoc]
  have e2 : lit "," ++ lit "\"open\":" = lit ",\"open\":" := by decide
  unfold apObject parseObject
  rw [e1]
  by_cases ho : a.encryption = WIFI_AUTH_OPEN
  · simp only [ho, if_true, List.append_assoc, expect_append, List.cons_append,
      jsonString_escapeName a.ssid _ h]
    rw [← List.append_assoc (lit ","), e2]
    simp [expect_append, parseBool_true]
  · simp only [ho, if_false, List.append_assoc, expect_append, List.cons_append,
      jsonString_escapeName a.ssid _ h]
    rw [← List.append_assoc (lit ","), e2]
    simp [expect_append, parseBool_false]


theorem intercalate_cons_cons (sep x y : Str) (l : List Str) :
    sep.intercalate (x :: y :: l) = x ++ sep ++ sep.intercalate (y :: l) := by
  simp [List.intercalate, List.intersperse]

theorem apObject_head (a : AccessPoint) : ∃ tail, apObject a = 123 :: tail := by
  have e : lit "\x7b" = [123] := by decide
  unfold apObject
  rw [e]
  simp only [List.append_assoc, List.singleton_append]
  exact ⟨_, rfl⟩

theorem parseElems_roundtrip (aps : List AccessPoint) (fuel : Nat)
    (hne : aps ≠ []) (hfuel : aps.length ≤ fuel)
    (h : ∀ a ∈ aps, ∀ c ∈ a.ssid, 32 ≤ c) :
    parseElems fuel ((lit ",").intercalate (aps.map apObject) ++ lit "]")
      = some (scanMeaning aps) := by
  have eb : lit "]" = [93] := by decide
  have ec : lit "," = [44] := by decide
  induction aps generalizing fuel with
  | nil => exact absurd rfl hne
  | cons a rest ih =>
    cases fuel with
    | zero => simp at hfuel
    | succ f =>
      have ha : ∀ c ∈ a.ssid, 32 ≤ c := h a (List.mem_cons_self _ _)
      cases rest with
      | nil =>
        simp [parseElems, List.intercalate, parseObject_apObject a _ ha, eb, scanMeaning]
      | cons b l =>
        have hrest : ∀ x ∈ b :: l, ∀ c ∈ x.ssid, 32 ≤ c :=
          fun x hx => h x (List.mem_cons_of_mem _ hx)
        have hf : (b :: l).length ≤ f := by
          simp only [List.length_cons] at hfuel ⊢; omega
        have ih2 := ih f (by simp) hf hrest
        simp only [List.map_cons, intercalate_cons_cons, List.append_assoc]
        simp only [List.map_cons] at ih2
        have e44 : ∀ x : Str, lit "," ++ x = 44 :: x := by
          intro x; rw [ec]; rfl
        rw [parseElems, parseObject_apObject a _ ha, e44]
        simp [ih2, scanMeaning]

theorem intercalate_length_ge (aps : List AccessPoint) :
    aps.length ≤ ((lit ",").intercalate (aps.map apObject)).length := by
  induction aps with
  | nil => simp
  | cons a rest ih =>
    obtain ⟨tail, ht⟩ := apObject_head a
    cases rest with
    | nil => simp [List.intercalate, ht]
    | cons b l =>
      simp only [List.map_cons, intercalate_cons_cons, List.length_append, List.length_cons, ht]
      simp only [List.map_cons, List.length_cons] at ih
      omega

/-- For scan results whose names hold no byte below 0x20, the 200 body of the
scan handler reads back, as JSON, to exactly the names and `open` flags of
the results, in order. -/
theorem scan_body_readable (w : World) (aps : List AccessPoint)
    (hw : w.radio.scan = ScanState.ready aps)
    (h : ∀ a ∈ aps, ∀ c ∈ a.ssid, 32 ≤ c) :
    ∃ b, scanBody w = Body.text b ∧ parseScanBody b = some (scanMeaning aps) := by
  refine ⟨lit "[" ++ (lit ",").intercalate (aps.map apObject) ++ lit "]",
    by simp [scanBody, scanGET_ready w aps hw, sendJson], ?_⟩
  have eo : lit "[" = [91] := by decide
  have eb : lit "]" = [93] := by decide
  cases aps with
  | nil => simp [parseScanBody, eo, eb, List.intercalate, scanMeaning]
  | cons a rest =>
    have hlen := intercalate_length_ge (a :: rest)
    have hr := parseElems_roundtrip (a :: rest)
      (lit "[" ++ (lit ",").intercalate ((a :: rest).map apObject) ++ lit "]").length
      (by simp) (by simp only [List.length_append]; omega) h
    obtain ⟨tail, ht⟩ := apObject_head a
    have hne : (lit ",").intercalate ((a :: rest).map apObject) ++ lit "]" ≠ [93] := by
      cases rest with
      | nil => simp [List.intercalate, ht]
      | cons b l => simp [intercalate_cons_cons, ht]
    rw [eo] at hr ⊢
    simp only [List.singleton_append, List.cons_append, List.nil_append] at hr ⊢
    simp only [parseScanBody, if_true, hne, if_false]
    exact hr

/-- C8 (what the code does at the failing input): for a scan result whose
only network is named by the byte 0x0A, the handler answers 200 with a body
that holds the line feed unescaped inside the string, which is not JSON: the
reader rejects it, so the name cannot be decoded. -/
theorem scan_body_line_feed_unreadable :
    (scanGET (scanDevice (ScanState.ready lineFeedScan))).2.status = 200 ∧
    scanBody (scanDevice (ScanState.ready lineFeedScan))
      = Body.text (lit "[\x7b\"name\":\"\n\",\"open\":true\x7d]") ∧
    parseScanBody (lit "[\x7b\"name\":\"\n\",\"open\":true\x7d]") = none := by
  decide


/-! ## Portal session -/

theorem lastAccepted_append (s t : List Event) :
    lastAccepted (s ++ t)
      = t.foldl (fun acc e => match e.accepted with
          | some c => some c
          | none => acc) (lastAccepted s) := by
  simp [lastAccepted, List.foldl_append]

theorem lastAccepted_append_quiet (s t : List Event) (h : ∀ e ∈ t, e.accepted = none) :
    lastAccepted (s ++ t) = lastAccepted s := by
  rw [lastAccepted_append]
  generalize lastAccepted s = acc
  induction t generalizing acc with
  | nil => rfl
  | cons e es ih =>
    have he : e.accepted = none := h e (List.mem_cons_self _ _)
    simp only [List.foldl_cons, he]
    exact ih (fun x hx => h x (List.mem_cons_of_mem _ hx)) acc

theorem lastAccepted_concat (s : List Event) (e : Event) :
    lastAccepted (s ++ [e]) = (match e.accepted with
      | some c => some c
      | none => lastAccepted s) := by
  rw [lastAccepted_append]; rfl

theorem lastAccepted_isSome (s : List Event) :
    (lastAccepted s).isSome = true ↔ ∃ e ∈ s, ∃ c, e.accepted = some c := by
  induction s using List.reverseRecOn with
  | nil => simp [lastAccepted]
  | append_singleton s e ih =>
    rw [lastAccepted_concat]
    cases he : e.accepted with
    | some c =>
      simp only [Option.isSome_some, true_iff]
      exact ⟨e, by simp, c, he⟩
    | none =>
      simp only [ih]
      constructor
      · rintro ⟨x, hx, c, hc⟩
        exact ⟨x, by simp [hx], c, hc⟩
      · rintro ⟨x, hx, c, hc⟩
        rcases List.mem_append.mp hx with hx | hx
        · exact ⟨x, hx, c, hc⟩
        · simp only [List.mem_singleton] at hx
          subst hx
          rw [he] at hc
          cases hc

theorem notFoundHandler_state (w : World) : (notFoundHandler w).1 = w := by
  unfold notFoundHandler
  split <;> rfl

/-- Effect of serving one request while the connect route is registered. -/
theorem serve_effect (req : Request) (w : World) (hc : w._server.serves Route.connectPOST = true) :
    (serve req w).1._server = w._server ∧
    (serve req w).1._auto_connect_timeout = w._auto_connect_timeout ∧
    ∃ evs, (serve req w).1.log = w.log ++ evs ∧ (∀ e ∈ evs, e.accepted = none) ∧
      (((Event.reply req (serve req w).2).accepted
            = some ((serve req w).1._sta_ssid, (serve req w).1._sta_password) ∧
          (serve req w).1.configured = true) ∨
        ((Event.reply req (serve req w).2).accepted = none ∧
          (serve req w).1.configured = w.configured ∧
          (serve req w).1._sta_ssid = w._sta_ssid ∧
          (serve req w).1._sta_password = w._sta_password ∧
          ∀ a b, Event.join a b ∉ evs)) := by
  cases req with
  | scan =>
    simp only [serve]
    split
    · unfold scanGET
      simp only []
      split
      · refine ⟨rfl, rfl, [Event.scanNetworks], ?_, ?_, Or.inr ?_⟩ <;>
          simp [WiFi_scanNetworks, World.emit, Event.accepted]
      · split
        · refine ⟨rfl, rfl, [], ?_, ?_, Or.inr ?_⟩ <;> simp [Event.accepted]
        · split
          · refine ⟨rfl, rfl, [Event.scanDelete, Event.scanNetworks], ?_, ?_, Or.inr ?_⟩ <;>
              simp [WiFi_scanNetworks, WiFi_scanDelete, World.emit, Event.accepted]
          · refine ⟨rfl, rfl, [Event.scanDelete], ?_, ?_, Or.inr ?_⟩ <;>
              simp [WiFi_scanDelete, World.emit, Event.accepted]
    · refine ⟨?_, ?_, [], ?_, ?_, Or.inr ?_⟩ <;>
        simp [notFoundHandler_state, Event.accepted]
  | connect sp pp =>
    simp only [serve, hc, if_true]
    unfold connectPOST
    simp only [ESP_OK, if_true]
    split
    · refine ⟨rfl, rfl, [], ?_, ?_, Or.inr ?_⟩ <;> simp [Event.accepted, sendJson]
    · split
      · refine ⟨rfl, rfl, [], ?_, ?_, Or.inr ?_⟩ <;> simp [Event.accepted, sendJson]
      · refine ⟨rfl, rfl, [Event.join (formField sp) (formField pp)], ?_, ?_, Or.inl ?_⟩ <;>
          simp [WiFi_begin, World.emit, Event.accepted, sendJson]
  | index =>
    simp only [serve]
    split
    · refine ⟨rfl, rfl, [], ?_, ?_, Or.inr ?_⟩ <;> simp [indexGET, Event.accepted]
    · refine ⟨?_, ?_, [], ?_, ?_, Or.inr ?_⟩ <;>
        simp [notFoundHandler_state, Event.accepted]
  | root viaAP =>
    simp only [serve]
    split
    · refine ⟨rfl, rfl, [], ?_, ?_, Or.inr ?_⟩ <;> simp [indexGET, Event.accepted]
    · refine ⟨?_, ?_, [], ?_, ?_, Or.inr ?_⟩ <;>
        simp [notFoundHandler_state, Event.accepted]
  | other =>
    simp only [serve]
    refine ⟨?_, ?_, [], ?_, ?_, Or.inr ?_⟩ <;>
      simp [notFoundHandler_state, Event.accepted]


theorem deliver_inv (w0 w : World) (s : List Event) (x : Incoming)
    (hc : w0._server.serves Route.connectPOST = true) (h : SessionInv w0 w s) :
    ∃ s2, SessionInv w0 (deliver w x) s2 := by
  cases x with
  | scanDone aps =>
    refine ⟨s, ?_⟩
    unfold deliver
    simp only []
    split
    · exact ⟨h.log, h.server, h.timeout, h.flag, h.creds, h.quiet⟩
    · exact h
  | http req =>
    have hcw : w._server.serves Route.connectPOST = true := by rw [h.server]; exact hc
    obtain ⟨hsrv, hto, evs, hlog, hq, hcase⟩ := serve_effect req w hcw
    refine ⟨(s ++ evs) ++ [Event.reply req (serve req w).2], ?_⟩
    have hlast : lastAccepted (s ++ evs) = lastAccepted s := lastAccepted_append_quiet s evs hq
    have hlog2 : (deliver w (Incoming.http req)).log
        = w0.log ++ ((s ++ evs) ++ [Event.reply req (serve req w).2]) := by
      simp [deliver, World.emit, hlog, h.log, List.append_assoc]
    rcases hcase with ⟨hacc, hconf⟩ | ⟨hacc, hconf, hs1, hs2, hj⟩
    · refine ⟨hlog2, ?_, ?_, ?_, ?_, ?_⟩
      · simp [deliver, World.emit, hsrv, h.server]
      · simp [deliver, World.emit, hto, h.timeout]
      · rw [lastAccepted_concat, hacc]
        simp [deliver, World.emit, hconf]
      · intro c hcx
        rw [lastAccepted_concat, hacc] at hcx
        simp only [Option.some.injEq] at hcx
        rw [← hcx]
        simp [deliver, World.emit]
      · intro hf
        simp [deliver, World.emit, hconf] at hf
    · refine ⟨hlog2, ?_, ?_, ?_, ?_, ?_⟩
      · simp [deliver, World.emit, hsrv, h.server]
      · simp [deliver, World.emit, hto, h.timeout]
      · rw [lastAccepted_concat, hacc, hlast]
        simp [deliver, World.emit, hconf, h.flag]
      · intro c hcx
        rw [lastAccepted_concat, hacc, hlast] at hcx
        have := h.creds c hcx
        simp [deliver, World.emit, hs1, hs2, this]
      · intro hf
        have hf2 : w.configured = false := by
          simpa [deliver, World.emit, hconf] using hf
        obtain ⟨q1, q2, q3⟩ := h.quiet hf2
        refine ⟨?_, ?_, ?_⟩
        · simp [deliver, World.emit, hs1, q1]
        · simp [deliver, World.emit, hs2, q2]
        · intro a b hmem
          simp only [List.mem_append, List.mem_singleton] at hmem
          rcases hmem with (hm | hm) | hm
          · exact q3 a b hm
          · exact hj a b hm
          · cases hm

theorem deliver_all_inv (w0 : World) (xs : List Incoming) (w : World) (s : List Event)
    (hc : w0._server.serves Route.connectPOST = true) (h : SessionInv w0 w s) :
    ∃ s2, SessionInv w0 (xs.foldl deliver w) s2 := by
  induction xs generalizing w s with
  | nil => exact ⟨s, h⟩
  | cons x rest ih =>
    obtain ⟨s1, h1⟩ := deliver_inv w0 w s x hc h
    exact ih (deliver w x) s1 h1

theorem emit_dns_inv (w0 w : World) (s : List Event) (h : SessionInv w0 w s) :
    SessionInv w0 (w.emit Event.dnsProcess) (s ++ [Event.dnsProcess]) := by
  have hl : lastAccepted (s ++ [Event.dnsProcess]) = lastAccepted s := by
    rw [lastAccepted_concat]; rfl
  refine ⟨?_, h.server, h.timeout, ?_, ?_, ?_⟩
  · simp [World.emit, h.log, List.append_assoc]
  · rw [hl]; exact h.flag
  · intro c hcx
    rw [hl] at hcx
    exact h.creds c hcx
  · intro hf
    obtain ⟨q1, q2, q3⟩ := h.quiet hf
    refine ⟨q1, q2, ?_⟩
    intro a b hmem
    simp only [List.mem_append, List.mem_singleton] at hmem
    rcases hmem with hm | hm
    · exact q3 a b hm
    · cases hm

theorem portalWait_inv (env : Env) (lastMillis : Nat) (w0 : World)
    (hc : w0._server.serves Route.connectPOST = true) (fuel k : Nat) (w : World) (s : List Event)
    (h : SessionInv w0 w s) :
    ∃ s2, SessionInv w0 (portalWait env lastMillis fuel k w).1 s2 := by
  induction fuel generalizing k w s with
  | zero => exact ⟨s, h⟩
  | succ f ih =>
    obtain ⟨s1, h1⟩ := deliver_all_inv w0 (env.incoming k) w s hc h
    simp only [portalWait]
    split
    · exact ih (k + 1) _ _ (emit_dns_inv w0 _ s1 h1)
    · exact ⟨s1, h1⟩

theorem portalWait_exits (env : Env) (lastMillis : Nat) (w0 : World)
    (hc : w0._server.serves Route.connectPOST = true) (n : Nat)
    (hexit : waitGuard (env.portalLink n) (millis (env.portalMillis n)) lastMillis
      w0._auto_connect_timeout = false)
    (fuel k : Nat) (w : World) (s : List Event) (h : SessionInv w0 w s)
    (hk : k ≤ n) (hfuel : n < k + fuel) :
    (portalWait env lastMillis fuel k w).2 = true := by
  induction fuel generalizing k w s with
  | zero => omega
  | succ f ih =>
    obtain ⟨s1, h1⟩ := deliver_all_inv w0 (env.incoming k) w s hc h
    simp only [portalWait]
    split
    · rename_i hg
      have hkn : k ≠ n := by
        intro e
        subst e
        rw [h1.timeout, hexit] at hg
        cases hg
      exact ih (k + 1) _ _ (emit_dns_inv w0 _ s1 h1) (by omega) (by omega)
    · rfl


theorem lastAccepted_quiet_append (s t : List Event) (h : ∀ e ∈ s, e.accepted = none) :
    lastAccepted (s ++ t) = lastAccepted t := by
  have hs : lastAccepted s = none := by
    have := lastAccepted_append_quiet [] s h
    simpa [lastAccepted] using this
  rw [lastAccepted_append, hs]
  rfl

theorem portalSetupEvents_quiet (w : World) : ∀ e ∈ portalSetupEvents w, e.accepted = none := by
  unfold portalSetupEvents
  split <;> simp [Event.accepted]

theorem portalSetup_facts (w : World) :
    (portalSetup w).log = w.log ++ portalSetupEvents w ∧
    (portalSetup w)._server.serves Route.connectPOST = true ∧
    (portalSetup w).configured = false ∧
    (portalSetup w)._sta_ssid = w._sta_ssid ∧
    (portalSetup w)._sta_password = w._sta_password ∧
    (portalSetup w)._auto_connect_timeout = w._auto_connect_timeout ∧
    (Obj.heap w._server.allocated, Route.scanGET) ∈ (portalSetup w)._server.handlers ∧
    (Obj.heap (w._server.allocated + 1), Route.connectPOST) ∈ (portalSetup w)._server.handlers ∧
    (Obj.heap (w._server.allocated + 2), Route.indexGET) ∈ (portalSetup w)._server.handlers ∧
    Obj.heap (w._server.allocated + 3) ∈ (portalSetup w)._server.rewrites := by
  unfold portalSetup portalSetupEvents
  by_cases h : w._sta_ssid = [] <;>
    simp [h, WiFi_mode, WiFi_softAP, WiFi_begin, dns_start, server_on, server_onNotFound,
      server_rewrite, server_begin, World.emit, Server.serves]

theorem SessionInv.start (w0 : World) (h : w0.configured = false) : SessionInv w0 w0 [] :=
  ⟨by simp, rfl, rfl, by simp [h, lastAccepted], by simp [lastAccepted],
    fun _ => ⟨rfl, rfl, by simp⟩⟩

theorem portalTeardown_facts (w : World) :
    (portalTeardown w).2 = w.configured ∧
    (portalTeardown w).1.log
      = w.log ++ portalTeardownEvents
        ++ (if w.configured then
            [Event.mode WifiMode.WIFI_STA, Event.join w._sta_ssid w._sta_password] else []) ∧
    (portalTeardown w).1._sta_ssid = w._sta_ssid ∧
    (portalTeardown w).1._sta_password = w._sta_password ∧
    (portalTeardown w).1._server.notFound = NotFound.plain404 ∧
    (portalTeardown w).1._dns = none ∧
    (portalTeardown w).1.radio.ap = false ∧
    (portalTeardown w).1.radio.softAP = none ∧
    (w.configured = true →
      (portalTeardown w).1.radio.sta = true ∧
      (portalTeardown w).1.radio.target = some (w._sta_ssid, w._sta_password)) ∧
    (∀ n r, (Obj.heap n, r) ∈ w._server.handlers →
      (Obj.heap n, r) ∈ (portalTeardown w).1._server.handlers) ∧
    (∀ n, Obj.heap n ∈ w._server.rewrites →
      Obj.heap n ∈ (portalTeardown w).1._server.rewrites) := by
  unfold portalTeardown portalTeardownEvents
  cases h : w.configured <;>
    simp [h, WiFi_mode, WiFi_begin, WiFi_softAPdisconnect, dns_stop, server_removeHandler,
      server_onNotFound, server_removeRewrite, World.emit, List.mem_filter]

theorem serves_of_mem (s : Server) (p : Obj) (r : Route) (h : (p, r) ∈ s.handlers) :
    s.serves r = true := by
  unfold Server.serves
  rw [List.any_eq_true]
  exact ⟨(p, r), h, by simp⟩

theorem rewritesRoot_of_mem (s : Server) (p : Obj) (h : p ∈ s.rewrites) :
    s.rewritesRoot = true := by
  unfold Server.rewritesRoot
  cases hr : s.rewrites with
  | nil => rw [hr] at h; cases h
  | cons x xs => rfl

/-- What a portal session that ends does, in terms of the calls `mid` made
while it waits. -/
theorem start_portal_spec (env : Env) (w : World) (fuel n : Nat)
    (hexit : waitGuard (env.portalLink n) (millis (env.portalMillis n)) (millis env.portalStart)
      w._auto_connect_timeout = false)
    (hfuel : n < fuel) :
    ∃ w2 r mid,
      start_portal env fuel w = (w2, some r) ∧
      w2.log = w.log ++ (portalSetupEvents w ++ mid ++ portalTeardownEvents
        ++ (if r then [Event.mode WifiMode.WIFI_STA, Event.join w2._sta_ssid w2._sta_password]
            else [])) ∧
      r = (lastAccepted mid).isSome ∧
      (∀ c, lastAccepted mid = some c → c = (w2._sta_ssid, w2._sta_password)) ∧
      (r = false → w2._sta_ssid = w._sta_ssid ∧ w2._sta_password = w._sta_password ∧
        ∀ a b, Event.join a b ∉ mid) ∧
      (r = true → w2.radio.sta = true ∧
        w2.radio.target = some (w2._sta_ssid, w2._sta_password)) ∧
      w2._server.notFound = NotFound.plain404 ∧
      w2._dns = none ∧ w2.radio.ap = false ∧ w2.radio.softAP = none ∧
      w2._server.serves Route.scanGET = true ∧
      w2._server.serves Route.connectPOST = true ∧
      w2._server.serves Route.indexGET = true ∧
      w2._server.rewritesRoot = true := by
  obtain ⟨slog, sconn, sconf, sssid, spw, sto, m1, m2, m3, m4⟩ := portalSetup_facts w
  have hexit2 : waitGuard (env.portalLink n) (millis (env.portalMillis n))
      (millis env.portalStart) (portalSetup w)._auto_connect_timeout = false := by
    rw [sto]; exact hexit
  have hdone := portalWait_exits env (millis env.portalStart) (portalSetup w) sconn n hexit2
    fuel 0 (portalSetup w) [] (SessionInv.start _ sconf) (Nat.zero_le _) (by omega)
  obtain ⟨mid, hinv⟩ := portalWait_inv env (millis env.portalStart) (portalSetup w) sconn
    fuel 0 (portalSetup w) [] (SessionInv.start _ sconf)
  obtain ⟨t2, tlog, tssid, tpw, t9, t10, t11, t12, t13, th, tr⟩ :=
    portalTeardown_facts (portalWait env (millis env.portalStart) fuel 0 (portalSetup w)).1
  rw [hinv.server] at th tr
  refine ⟨(portalTeardown (portalWait env (millis env.portalStart) fuel 0 (portalSetup w)).1).1,
    (portalTeardown (portalWait env (millis env.portalStart) fuel 0 (portalSetup w)).1).2,
    mid, ?_, ?_, ?_, ?_, ?_, ?_, t9, t10, t11, t12,
    serves_of_mem _ _ _ (th _ _ m1), serves_of_mem _ _ _ (th _ _ m2),
    serves_of_mem _ _ _ (th _ _ m3), rewritesRoot_of_mem _ _ (tr _ m4)⟩
  · simp [start_portal, hdone]
  · rw [tlog, hinv.log, slog, t2, tssid, tpw]
    simp [List.append_assoc]
  · rw [t2]; exact hinv.flag
  · intro c hc
    rw [tssid, tpw]
    exact hinv.creds c hc
  · intro hr
    rw [t2] at hr
    obtain ⟨q1, q2, q3⟩ := hinv.quiet hr
    exact ⟨by rw [tssid, q1, sssid], by rw [tpw, q2, spw], q3⟩
  · intro hr
    rw [t2] at hr
    rw [tssid, tpw]
    exact t13 hr

/-- A portal session starts with the calls of `portalSetup`, whether or not it
ends. -/
theorem start_portal_log (env : Env) (w : World) (fuel : Nat) :
    ∃ rest, (start_portal env fuel w).1.log = w.log ++ portalSetupEvents w ++ rest := by
  obtain ⟨slog, sconn, sconf, -⟩ := portalSetup_facts w
  obtain ⟨mid, hinv⟩ := portalWait_inv env (millis env.portalStart) (portalSetup w) sconn
    fuel 0 (portalSetup w) [] (SessionInv.start _ sconf)
  obtain ⟨-, tlog, -⟩ :=
    portalTeardown_facts (portalWait env (millis env.portalStart) fuel 0 (portalSetup w)).1
  unfold start_portal
  simp only []
  split
  · refine ⟨mid ++ (portalTeardownEvents ++
      (if (portalWait env (millis env.portalStart) fuel 0 (portalSetup w)).1.configured then
        [Event.mode WifiMode.WIFI_STA,
          Event.join (portalWait env (millis env.portalStart) fuel 0 (portalSetup w)).1._sta_ssid
            (portalWait env (millis env.portalStart) fuel 0 (portalSetup w)).1._sta_password]
      else [])), ?_⟩
    rw [tlog, hinv.log, slog]
    simp only [List.append_assoc]
  · exact ⟨mid, by rw [hinv.log, slog]⟩


theorem session_lastAccepted (w : World) (mid : List Event) (r : Bool) (a b : Str) :
    lastAccepted (portalSetupEvents w ++ mid ++ portalTeardownEvents
        ++ (if r then [Event.mode WifiMode.WIFI_STA, Event.join a b] else []))
      = lastAccepted mid := by
  have hq : ∀ e ∈ portalTeardownEvents
      ++ (if r then [Event.mode WifiMode.WIFI_STA, Event.join a b] else []),
      e.accepted = none := by
    unfold portalTeardownEvents
    cases r <;> simp [Event.accepted]
  rw [List.append_assoc, List.append_assoc, lastAccepted_quiet_append _ _ (portalSetupEvents_quiet w),
    lastAccepted_append_quiet _ _ hq]

/-- What `start_portal` achieves.  A portal session that ends (the wait-loop
guard is false at some evaluation `n` within the fuel) returns true if and
only if the connect handler accepted a submission during it (answered a
connect request with 200).  In that case the radio is left in station-only
mode and the last two calls are `WiFi.mode(WIFI_STA)` and `WiFi.begin` with
the credentials of the last accepted submission, which are those held in
`_sta_ssid` / `_sta_password`; otherwise it returns false.  In both cases the
DNS responder is stopped and `_dns` is null, the access point is off and the
not-found handler answers 404; but the three routes and the rewrite are still
in the server's lists. -/
theorem start_portal_result (env : Env) (w : World) (fuel n : Nat)
    (hexit : waitGuard (env.portalLink n) (millis (env.portalMillis n)) (millis env.portalStart)
      w._auto_connect_timeout = false)
    (hfuel : n < fuel) :
    ∃ w2 r session,
      start_portal env fuel w = (w2, some r) ∧
      w2.log = w.log ++ session ∧
      (r = true ↔ ∃ e ∈ session, ∃ c, e.accepted = some c) ∧
      (r = true →
        lastAccepted session = some (w2._sta_ssid, w2._sta_password) ∧
        w2.radio.sta = true ∧ w2.radio.ap = false ∧
        w2.radio.target = some (w2._sta_ssid, w2._sta_password) ∧
        ∃ before, session = before
          ++ [Event.mode WifiMode.WIFI_STA, Event.join w2._sta_ssid w2._sta_password]) ∧
      w2._dns = none ∧ Event.dnsStop ∈ session ∧
      w2.radio.ap = false ∧ w2.radio.softAP = none ∧ Event.softAPdisconnect ∈ session ∧
      w2._server.notFound = NotFound.plain404 ∧ (notFoundHandler w2).2 = send 404 ∧
      w2._server.serves Route.scanGET = true ∧
      w2._server.serves Route.connectPOST = true ∧
      w2._server.serves Route.indexGET = true ∧
      w2._server.rewritesRoot = true := by
  obtain ⟨w2, r, mid, hrun, hlog, hr, hcreds, -, hsta, f5, f6, f7, f8, g1, g2, g3, g4⟩ :=
    start_portal_spec env w fuel n hexit hfuel
  have hlast := session_lastAccepted w mid r w2._sta_ssid w2._sta_password
  refine ⟨w2, r, _, hrun, hlog, ?_, ?_, f6, ?_, f7, f8, ?_, f5, ?_, g1, g2, g3, g4⟩
  · rw [← lastAccepted_isSome, hlast, hr]
  · intro hrt
    have hsome : (lastAccepted mid).isSome = true := by rw [← hr]; exact hrt
    obtain ⟨c, hc⟩ := Option.isSome_iff_exists.mp hsome
    refine ⟨?_, (hsta hrt).1, f7, (hsta hrt).2, ?_⟩
    · rw [hlast, hc, hcreds c hc]
    · exact ⟨portalSetupEvents w ++ mid ++ portalTeardownEvents, by simp [hrt]⟩
  · simp [portalTeardownEvents]
  · simp [portalTeardownEvents]
  · simp [notFoundHandler, f5]

/-- Had `removeHandler` been given the address of the handler the server
holds, the route would be gone: on a fresh server the scan route is registered
at `Obj.heap 0`, and removing that address leaves no handler for it. -/
theorem removeHandler_by_address :
    (server_on Route.scanGET freshDevice)._server.serves Route.scanGET = true ∧
    (server_removeHandler (Obj.heap 0)
      (server_on Route.scanGET freshDevice))._server.serves Route.scanGET = false ∧
    (server_removeHandler (Obj.stack Local.scanGET)
      (server_on Route.scanGET freshDevice))._server.serves Route.scanGET = true := by
  decide

/-- C9 (what the code does at the failing input): the session of the stored
device in the unreachable environment accepts one submission and returns
true, the DNS responder is gone, the access point is off and the not-found
handler is the plain 404; but `removeHandler` and `removeRewrite` were given
the addresses of the local copies, so the server still holds the three routes
and the rewrite, and a later `GET /espconnect` is still answered with the
portal page. -/
theorem start_portal_keeps_routes :
    (start_portal Env.unreachable 4 storedDevice).2 = some true ∧
    (start_portal Env.unreachable 4 storedDevice).1._dns = none ∧
    (start_portal Env.unreachable 4 storedDevice).1.radio.ap = false ∧
    (start_portal Env.unreachable 4 storedDevice).1._server.notFound = NotFound.plain404 ∧
    (start_portal Env.unreachable 4 storedDevice).1._server.handlers
      = [(Obj.heap 0, Route.scanGET), (Obj.heap 1, Route.connectPOST),
          (Obj.heap 2, Route.indexGET)] ∧
    (start_portal Env.unreachable 4 storedDevice).1._server.rewrites = [Obj.heap 3] ∧
    (serve Request.index (start_portal Env.unreachable 4 storedDevice).1).2 = sendPage ∧
    (serve Request.scan (start_portal Env.unreachable 4 storedDevice).1).2 = send 202 := by
  decide

/-! ## `begin` -/

theorem load_facts (server : Server) (w : World) :
    (load_sta_credentials { w with _server := server })._sta_ssid = w.prefs.getString Key.ssid [] ∧
    (load_sta_credentials { w with _server := server })._sta_password
      = w.prefs.getString Key.password [] ∧
    (load_sta_credentials { w with _server := server }).log = w.log ∧
    (load_sta_credentials { w with _server := server })._server = server ∧
    (load_sta_credentials { w with _server := server })._dns = w._dns ∧
    (load_sta_credentials { w with _server := server })._auto_connect_timeout
      = w._auto_connect_timeout := by
  simp [load_sta_credentials]

theorem stationWait_exits (env : Env) (timeout lastMillis n : Nat)
    (hexit : waitGuard (env.staLink n) (millis (env.staMillis n)) lastMillis timeout = false)
    (fuel k : Nat) (hk : k ≤ n) (hfuel : n < k + fuel) :
    stationWait env timeout lastMillis fuel k = true := by
  induction fuel generalizing k with
  | zero => omega
  | succ f ih =>
    simp only [stationWait]
    split
    · rename_i hg
      have hkn : k ≠ n := by
        intro e
        subst e
        rw [hexit] at hg
        cases hg
      exact ih (k + 1) (by omega) (by omega)
    · rfl

theorem stationJoin_facts (w : World) :
    (stationJoin w).log
      = w.log ++ [Event.persistent false, Event.setAutoConnect false,
          Event.mode WifiMode.WIFI_STA, Event.join w._sta_ssid w._sta_password] ∧
    (stationJoin w)._server = w._server ∧
    (stationJoin w)._dns = w._dns ∧
    (stationJoin w).radio.ap = false ∧
    (stationJoin w).radio.softAP = none := by
  simp [stationJoin, WiFi_begin, WiFi_mode, World.emit]

/-- C5: with a non-empty stored ssid, the first calls `begin` makes are
`persistent(false)`, `setAutoConnect(false)`, `mode(WIFI_STA)` and the join
with exactly the stored ssid and password, for every timeout and environment,
so the station join precedes any access point, DNS or route call; and if the
bounded poll ends (its guard is false at some evaluation `n` within the fuel,
by link or by timeout) and the radio then reports an established link (the
status read on line 223), `begin` returns true having made no further call:
no portal session is started, the server and `_dns` are untouched and the
access point is off. -/
theorem begin_joins_before_portal (env : Env) (fuel : Nat) (server : Server) (timeout : Nat)
    (w : World) (hne : w.prefs.getString Key.ssid [] ≠ []) :
    (∃ rest, (begin env fuel server timeout w).1.log
      = w.log ++ [Event.persistent false, Event.setAutoConnect false,
          Event.mode WifiMode.WIFI_STA,
          Event.join (w.prefs.getString Key.ssid []) (w.prefs.getString Key.password [])]
        ++ rest) ∧
    (∀ n, n < fuel →
      waitGuard (env.staLink n) (millis (env.staMillis n)) (millis env.staStart) timeout = false →
      env.staFinal = true →
      (begin env fuel server timeout w).2 = some true ∧
      (begin env fuel server timeout w).1.log
        = w.log ++ [Event.persistent false, Event.setAutoConnect false,
            Event.mode WifiMode.WIFI_STA,
            Event.join (w.prefs.getString Key.ssid []) (w.prefs.getString Key.password [])] ∧
      (begin env fuel server timeout w).1._server = server ∧
      (begin env fuel server timeout w).1._dns = w._dns ∧
      (begin env fuel server timeout w).1.radio.ap = false ∧
      (begin env fuel server timeout w).1.radio.softAP = none) := by
  obtain ⟨l1, l2, l3, l4, l5, -⟩ := load_facts server w
  have hne2 : (load_sta_credentials { w with _server := server })._sta_ssid ≠ [] := by
    rw [l1]; exact hne
  obtain ⟨j1, j2, j3, j4, j5⟩ := stationJoin_facts (load_sta_credentials { w with _server := server })
  rw [l1, l2, l3] at j1
  rw [l4] at j2
  rw [l5] at j3
  constructor
  · unfold begin
    simp only [hne2, ne_eq, not_false_eq_true, if_true]
    split
    · unfold beginDecide
      split
      · obtain ⟨rest, hrest⟩ := start_portal_log env
          (stationJoin (load_sta_credentials { w with _server := server })) fuel
        refine ⟨portalSetupEvents
          (stationJoin (load_sta_credentials { w with _server := server })) ++ rest, ?_⟩
        rw [hrest, j1]
        simp only [List.append_assoc]
      · exact ⟨[], by rw [j1]; simp⟩
    · exact ⟨[], by rw [j1]; simp⟩
  · intro n hn hexit hfin
    have hpoll := stationWait_exits env timeout (millis env.staStart) n hexit fuel 0
      (Nat.zero_le _) (by omega)
    unfold begin
    simp only [hne2, ne_eq, not_false_eq_true, if_true, hpoll, beginDecide, hfin]
    exact ⟨by simp, j1, j2, j3, j4, j5⟩

/-- The stored device with a radio that links at once. -/
theorem begin_joins_before_portal_witness :
    (begin Env.linked 1 Server.fresh DEFAULT_CONNECTION_TIMEOUT storedDevice).2 = some true ∧
    (begin Env.linked 1 Server.fresh DEFAULT_CONNECTION_TIMEOUT storedDevice).1.log
      = storedDevice.log ++ [Event.persistent false, Event.setAutoConnect false,
          Event.mode WifiMode.WIFI_STA,
          Event.join (storedDevice.prefs.getString Key.ssid [])
            (storedDevice.prefs.getString Key.password [])] :=
  ⟨((begin_joins_before_portal Env.linked 1 Server.fresh DEFAULT_CONNECTION_TIMEOUT storedDevice
      (by decide)).2 0 (by decide) (by decide) rfl).1,
    ((begin_joins_before_portal Env.linked 1 Server.fresh DEFAULT_CONNECTION_TIMEOUT storedDevice
      (by decide)).2 0 (by decide) (by decide) rfl).2.1⟩


/-- C4 (counterexample): on a never-configured device whose radio already
reports an established link when `begin` reads the status on line 223,
`isConfigured` is false and yet `begin` returns true without a single
collaborator call: no portal session is started. -/
theorem linked_radio_skips_portal :
    freshDevice.prefs.ssid = none ∧
    (isConfigured freshDevice).2 = false ∧
    Env.linked.staFinal = true ∧
    (begin Env.linked 1 Server.fresh DEFAULT_CONNECTION_TIMEOUT freshDevice).2 = some true ∧
    (begin Env.linked 1 Server.fresh DEFAULT_CONNECTION_TIMEOUT freshDevice).1.log = [] ∧
    (begin Env.linked 1 Server.fresh DEFAULT_CONNECTION_TIMEOUT freshDevice).1._dns = none ∧
    (begin Env.linked 1 Server.fresh DEFAULT_CONNECTION_TIMEOUT freshDevice).1.radio.ap = false ∧
    (begin Env.linked 1 Server.fresh DEFAULT_CONNECTION_TIMEOUT freshDevice).1._server
      = Server.fresh := by
  decide

/-- C4 (amended): when the persisted ssid is absent or empty, `isConfigured`
returns false and `begin`, for every timeout, skips the station attempt and
decides on the status read of line 223.  If the radio reports no link there,
`begin` is `start_portal`: its first calls are the portal set-up (AP+STA mode,
access point, DNS, the three routes, not-found handler, rewrite, server
begin) with no join among them, and when the session ends without an accepted
submission no join was issued at all.  If the radio already reports a link,
`begin` returns true at once. -/
theorem begin_without_credentials (env : Env) (fuel : Nat) (server : Server) (timeout : Nat)
    (w : World) (h : w.prefs.ssid = none ∨ w.prefs.ssid = some []) :
    (isConfigured w).2 = false ∧
    (env.staFinal = true →
      begin env fuel server timeout w
        = (load_sta_credentials { w with _server := server }, some true)) ∧
    (env.staFinal = false →
      begin env fuel server timeout w
        = start_portal env fuel (load_sta_credentials { w with _server := server }) ∧
      (∃ rest, (begin env fuel server timeout w).1.log
        = w.log ++ [Event.mode WifiMode.WIFI_AP_STA,
            Event.softAP w._auto_connect_ssid w._auto_connect_password, Event.dnsStart,
            Event.on Route.scanGET, Event.on Route.connectPOST, Event.on Route.indexGET,
            Event.onNotFound NotFound.portalPage, Event.rewrite, Event.serverBegin] ++ rest) ∧
      (∀ n, n < fuel →
        waitGuard (env.portalLink n) (millis (env.portalMillis n)) (millis env.portalStart)
          w._auto_connect_timeout = false →
        ∃ w2 r session,
          begin env fuel server timeout w = (w2, some r) ∧
          w2.log = w.log ++ session ∧
          (r = true ↔ ∃ e ∈ session, ∃ c, e.accepted = some c) ∧
          (r = false → ∀ a b, Event.join a b ∉ session))) := by
  have hs : w.prefs.getString Key.ssid [] = [] := by
    rcases h with h | h <;> simp [Preferences.getString, h]
  obtain ⟨l1, -, l3, -, -, l6⟩ := load_facts server w
  have hempty : (load_sta_credentials { w with _server := server })._sta_ssid = [] := by
    rw [l1]; exact hs
  have hsetup : portalSetupEvents (load_sta_credentials { w with _server := server })
      = [Event.mode WifiMode.WIFI_AP_STA,
          Event.softAP w._auto_connect_ssid w._auto_connect_password, Event.dnsStart,
          Event.on Route.scanGET, Event.on Route.connectPOST, Event.on Route.indexGET,
          Event.onNotFound NotFound.portalPage, Event.rewrite, Event.serverBegin] := by
    unfold portalSetupEvents
    rw [hempty]
    simp [load_sta_credentials]
  refine ⟨?_, ?_, ?_⟩
  · simp [isConfigured, load_sta_credentials, hs]
  · intro hfin
    simp [begin, hempty, beginDecide, hfin]
  · intro hfin
    have hb : begin env fuel server timeout w
        = start_portal env fuel (load_sta_credentials { w with _server := server }) := by
      simp [begin, hempty, beginDecide, hfin]
    refine ⟨hb, ?_, ?_⟩
    · obtain ⟨rest, hrest⟩ :=
        start_portal_log env (load_sta_credentials { w with _server := server }) fuel
      exact ⟨rest, by rw [hb, hrest, hsetup, l3]⟩
    · intro n hn hexit
      have hexit2 : waitGuard (env.portalLink n) (millis (env.portalMillis n))
          (millis env.portalStart)
          (load_sta_credentials { w with _server := server })._auto_connect_timeout = false := by
        rw [l6]; exact hexit
      obtain ⟨w2, r, mid, hrun, hlog, hr, -, hquiet, -⟩ :=
        start_portal_spec env (load_sta_credentials { w with _server := server }) fuel n
          hexit2 hn
      have hlast := session_lastAccepted (load_sta_credentials { w with _server := server })
        mid r w2._sta_ssid w2._sta_password
      refine ⟨w2, r, _, by rw [hb, hrun], by rw [hlog, l3], ?_, ?_⟩
      · rw [← lastAccepted_isSome, hlast, hr]
      · intro hrf
        obtain ⟨-, -, hj⟩ := hquiet hrf
        intro a b hmem
        rw [hsetup, hrf] at hmem
        simp only [Bool.false_eq_true, if_false, List.append_nil, List.mem_append] at hmem
        rcases hmem with (hm | hm) | hm
        · simp at hm
        · exact hj a b hm
        · simp [portalTeardownEvents] at hm

/-- The fresh device in the unreachable environment: the portal runs and its
session ends at the fourth guard evaluation. -/
theorem begin_without_credentials_witness :
    (isConfigured freshDevice).2 = false ∧
    begin Env.unreachable 4 Server.fresh 5000 freshDevice
      = start_portal Env.unreachable 4
          (load_sta_credentials { freshDevice with _server := Server.fresh }) ∧
    ∃ w2 r session,
      begin Env.unreachable 4 Server.fresh 5000 freshDevice = (w2, some r) ∧
      w2.log = freshDevice.log ++ session ∧
      (r = true ↔ ∃ e ∈ session, ∃ c, e.accepted = some c) ∧
      (r = false → ∀ a b, Event.join a b ∉ session) :=
  ⟨(begin_without_credentials Env.unreachable 4 Server.fresh 5000 freshDevice (Or.inl rfl)).1,
    ((begin_without_credentials Env.unreachable 4 Server.fresh 5000 freshDevice (Or.inl rfl)).2.2 rfl).1,
    ((begin_without_credentials Env.unreachable 4 Server.fresh 5000 freshDevice (Or.inl rfl)).2.2
      rfl).2.2 3 (by decide) (by decide)⟩

end ESPConnect
